import Mathlib

/-!
Verification of the pysvn-installer script (`install.py`).

The script is shallowly embedded: every helper of the Python source is
translated to a pure Lean function, the ambient effects (network, file
system, subprocesses) are collected in a `World` record of oracles, and
`main` returns an explicit trace of events together with the process
exit code.  Path manipulation (`os.path.join`, `os.path.normpath`,
`os.path.abspath`, `os.path.commonprefix`) and the version regular
expression are modelled character by character, following the CPython
implementations for POSIX paths.
-/

/-- Character strings, modelled as lists of characters so that the
byte-level behaviour of `os.path` and `re` can be followed exactly. -/
abbrev Str := List Char

/-- Coerce a Lean string literal to the character-list representation. -/
def strOf (s : String) : Str := s.data

/-- Model of `os.path.commonprefix([a, b])`: the longest common
character-wise prefix of the two strings. -/
def commonPrefixOf : Str → Str → Str
  | a :: as, b :: bs => if a = b then a :: commonPrefixOf as bs else []
  | _, _ => []

/-- Model of Python `str.split('/')`. -/
def splitOnSlash : Str → List Str
  | [] => [[]]
  | c :: rest =>
    match splitOnSlash rest with
    | [] => [[]]
    | p :: ps => if c = '/' then [] :: p :: ps else (c :: p) :: ps

/-- Model of Python `'/'.join(parts)`. -/
def joinWithSlash (parts : List Str) : Str :=
  List.intercalate [ '/' ] parts

/-- Model of `posixpath.isabs`. -/
def isabs (p : Str) : Bool :=
  p.head? = some '/'

/-- One step of the component scan inside `posixpath.normpath`: Python's
loop body over `comps`, with `initialSlashes` the number of leading
slashes of the whole path. -/
def normpathStep (initialSlashes : Nat) (acc : List Str) (comp : Str) : List Str :=
  if comp = [] ∨ comp = strOf "." then acc
  else if comp ≠ strOf ".." ∨ (initialSlashes = 0 ∧ acc = []) ∨
          (acc ≠ [] ∧ acc.getLast? = some (strOf "..")) then
    acc ++ [comp]
  else if acc ≠ [] then acc.dropLast
  else acc

/-- Model of `posixpath.normpath`: collapse duplicate slashes, drop `.`
components and resolve `..` components lexically, preserving one or two
initial slashes as CPython does. -/
def normpath (p : Str) : Str :=
  if p = [] then strOf "."
  else
    let initialSlashes : Nat :=
      if (strOf "//").isPrefixOf p ∧ ¬ (strOf "///").isPrefixOf p then 2
      else if isabs p then 1
      else 0
    let comps := splitOnSlash p
    let newComps := comps.foldl (normpathStep initialSlashes) []
    let joined := List.replicate initialSlashes '/' ++ joinWithSlash newComps
    if joined = [] then strOf "." else joined

/-- Model of the two-argument `posixpath.join`. -/
def pjoin (a b : Str) : Str :=
  if isabs b then b
  else if a = [] ∨ a.getLast? = some '/' then a ++ b
  else a ++ '/' :: b

/-- Model of `posixpath.abspath`, with the process working directory
passed explicitly. -/
def abspath (cwd p : Str) : Str :=
  if isabs p then normpath p else normpath (pjoin cwd p)

/-- Model of `is_within_directory` from `extract_pysvn` in `install.py`:
compare `os.path.commonprefix` of the absolute paths with the absolute
directory. -/
def is_within_directory (cwd directory target : Str) : Bool :=
  let abs_directory := abspath cwd directory
  let abs_target := abspath cwd target
  commonPrefixOf abs_directory abs_target = abs_directory

/-- Formalisation of the claim's notion of a path resolving inside a
directory: after joining and normalising, the target either equals the
directory or lies strictly below it as a path component. -/
def resolvesInsideDir (cwd directory name : Str) : Bool :=
  let abs_directory := abspath cwd directory
  let abs_target := abspath cwd (pjoin directory name)
  abs_target = abs_directory ∨ (abs_directory ++ [ '/' ]).isPrefixOf abs_target

/-- Model of the Python substring test `tok in s`. -/
def hasSubstr (tok : Str) : Str → Bool
  | [] => tok.isPrefixOf []
  | c :: rest => tok.isPrefixOf (c :: rest) || hasSubstr tok rest

/-- Character class `[0-9\.-]` of the version regular expression. -/
def isVerChar (c : Char) : Bool :=
  c.isDigit || c == '.' || c == '-'

/-- Matches the regex fragment `.*lit` (with `.` not matching a
newline) somewhere in `s`; only success matters for this trailing
fragment, so no capture is produced. -/
def dotStarLit (lit : Str) : Str → Bool
  | [] => lit.isPrefixOf []
  | c :: rest => lit.isPrefixOf (c :: rest) || (c ≠ '\n' && dotStarLit lit rest)

/-- Matches the regex fragment `(?P<version>[0-9\.-]+)/.*</link>` at the
start of `s`, returning the capture group.  The greedy `+` always takes
the maximal run of version characters; shortening the run cannot help
because the character after a shorter run is a version character and
never the required `/`. -/
def afterV (s : Str) : Option Str :=
  let grp := s.takeWhile isVerChar
  if grp = [] then none
  else
    match s.drop grp.length with
    | '/' :: rest => if dotStarLit (strOf "</link>") rest then some grp else none
    | _ => none

/-- Matches the regex fragment `.*/files/pysvn/V(?P<version>...)...` at
the start of `s`.  The leading `.*` is greedy, so later occurrences of
the literal are preferred: the recursion first consumes the current
character and only on failure tries the literal at the current
position. -/
def dotStarThenV : Str → Option Str
  | [] => none
  | c :: rest =>
    let here : Option Str :=
      if (strOf "/files/pysvn/V").isPrefixOf (c :: rest) then
        afterV ((c :: rest).drop (strOf "/files/pysvn/V").length)
      else none
    match (if c = '\n' then none else dotStarThenV rest) with
    | some r => some r
    | none => here

/-- Attempts to match `VERSION_RE` at the start of `s`. -/
def matchLinkAt (s : Str) : Option Str :=
  if (strOf "<link>").isPrefixOf s then
    dotStarThenV (s.drop (strOf "<link>").length)
  else none

/-- Model of `VERSION_RE.search(data)`: the capture group of the
leftmost match of
`<link>.*/files/pysvn/V(?P<version>[0-9\.-]+)/.*</link>`. -/
def reSearch : Str → Option Str
  | [] => none
  | c :: rest =>
    match matchLinkAt (c :: rest) with
    | some r => some r
    | none => reSearch rest

/-- Model of Python `s.replace(tok, repl)` for a non-empty `tok`:
replace the non-overlapping occurrences of `tok`, scanning from the
left.  (For an empty `tok` the model returns `s` unchanged; the script
only ever replaces the fixed non-empty marker.) -/
def pyReplace (tok repl : Str) : Str → Str
  | [] => []
  | c :: rest =>
    if tok ≠ [] ∧ tok.isPrefixOf (c :: rest) then
      repl ++ pyReplace tok repl (rest.drop (tok.length - 1))
    else
      c :: pyReplace tok repl rest
termination_by s => s.length
decreasing_by
  all_goals simp [List.length_drop]
  omega

/-- Model of Python `s.split(tok)` for a non-empty `tok`, the
decomposition underlying `pyReplace`. -/
def pySplit (tok : Str) : Str → List Str
  | [] => [[]]
  | c :: rest =>
    if tok ≠ [] ∧ tok.isPrefixOf (c :: rest) then
      [] :: pySplit tok (rest.drop (tok.length - 1))
    else
      match pySplit tok rest with
      | [] => [[]]
      | p :: ps => (c :: p) :: ps
termination_by s => s.length
decreasing_by
  all_goals simp [List.length_drop]
  omega

/-- Observable effects of a run of the script, in chronological order. -/
inductive Ev where
  | mkdTemp
  | registerCleanup
  | fetchFeed
  | fetchArchive (version : Str)
  | extractAll
  | chdir (path : Str)
  | writeSetupPy (path content : Str)
  | subprocess (args : List Str)
  | stderrMsg (msg : Str)
deriving DecidableEq

/-- Result of a modelled step: either the process already called
`sys.exit` (or died on an uncaught exception) with the given code, or
the step returned a value; both carry the events of the step. -/
inductive Outcome (α : Type) where
  | exited (code : Int) (events : List Ev)
  | ok (val : α) (events : List Ev)
deriving DecidableEq

/-- Ambient environment of one run: all quantities the script obtains
from the operating system, network and subprocesses. -/
structure World where
  cwd : Str
  tempPath : Str
  feed : Option Str
  archiveFetchOk : Str → Bool
  pathExists : Str → Bool
  tarMembers : Str → List Str
  globPysvn : List Str
  globPycxx : Str → List Str
  readFile : Str → Str
  system : Str
  brewPrefix : Str → Option Str
  getuser : Str
  gccMachine : Option Str
  configOutput : Str → Str → Str
  subprocCall : List Str → Int

/-- Python truthiness of an optional string (`None` and `''` are
falsy). -/
def truthyOptS : Option Str → Bool
  | some s => !s.isEmpty
  | none => false

/-- The support message printed on most failure paths. -/
def report_msg : Str := strOf "Please report to support@beanbaginc.com."

/-- Model of `get_pysvn_version`: fetch the RSS feed and scan it with
`VERSION_RE`. -/
def get_pysvn_version (w : World) : Outcome Str :=
  match w.feed with
  | none =>
    Outcome.exited 1 [Ev.fetchFeed,
      Ev.stderrMsg (strOf "Unable to fetch PySVN downloads RSS feed.")]
  | some data =>
    match reSearch data with
    | none =>
      Outcome.exited 1 [Ev.fetchFeed,
        Ev.stderrMsg (strOf "Unable to find latest PySVN version in RSS feed."),
        Ev.stderrMsg report_msg]
    | some v => Outcome.ok v [Ev.fetchFeed]

/-- Model of `fetch_pysvn`: download the versioned archive into the
temporary directory. -/
def fetch_pysvn (w : World) (pysvn_version : Str) : Outcome Str :=
  let tarball_path := pjoin w.tempPath (strOf "pysvn.tar.gz")
  if w.archiveFetchOk pysvn_version then
    Outcome.ok tarball_path [Ev.fetchArchive pysvn_version]
  else
    Outcome.exited 1 [Ev.fetchArchive pysvn_version,
      Ev.stderrMsg (strOf "Unable to fetch PySVN."),
      Ev.stderrMsg report_msg]

/-- Model of `extract_pysvn`: check every member with
`is_within_directory`, raising before anything is written when a member
fails the check, then extract and look for the `pysvn-*` directory. -/
def extract_pysvn (w : World) (tarball_path : Str) : Outcome Str :=
  let members := w.tarMembers tarball_path
  if members.all
      (fun m => is_within_directory w.cwd w.tempPath (pjoin w.tempPath m)) then
    match w.globPysvn with
    | [] =>
      Outcome.exited 1 [Ev.extractAll,
        Ev.stderrMsg (strOf "Unable to find pysvn-* directory in tarball."),
        Ev.stderrMsg report_msg]
    | d :: _ => Outcome.ok d [Ev.extractAll]
  else
    Outcome.exited 1 [Ev.stderrMsg (strOf "Attempted Path Traversal in Tar File")]

/-- Model of `get_linux_arch_dirs` (with `get_linux_arch` inlined as the
`gccMachine` oracle): the existing multiarch library directories. -/
def get_linux_arch_dirs (w : World) : List Str :=
  match w.gccMachine with
  | none => []
  | some arch =>
    if arch.isEmpty then []
    else [strOf "/usr/lib/" ++ arch, strOf "/usr/local/lib/" ++ arch].filter w.pathExists

/-- The candidate-path lists and configure arguments accumulated by
`build_pysvn` before the marker-file scan loops. -/
structure DepLists where
  config_args : List Str
  extra_apr_include_paths : List Str
  extra_apr_lib_paths : List Str
  extra_apu_include_paths : List Str
  extra_svn_bin_paths : List Str
  extra_svn_include_paths : List Str
  extra_svn_lib_paths : List Str
  apr_config_path : Option Str
  apu_config_path : Option Str
  libapr_filename : Option Str
  libsvn_client_filename : Option Str
deriving DecidableEq

/-- The platform-conditional part of `build_pysvn`: the `Darwin` /
`Linux` branches that seed the candidate-path lists. -/
def platform_dep_lists (w : World) (pycxx_path : Str) : DepLists :=
  let base : List Str := [strOf "--pycxx-dir=\"" ++ pycxx_path ++ [ '"' ]]
  if w.system = strOf "Darwin" then
    let brew_svn_path := w.brewPrefix (strOf "subversion")
    let brew_apr_path := w.brewPrefix (strOf "apr")
    let brew_apr_util_path := w.brewPrefix (strOf "apr-util")
    let apr_config_path :=
      if truthyOptS brew_apr_path then
        some (pjoin (pjoin (brew_apr_path.getD []) (strOf "bin"))
                (strOf "apr-1-config"))
      else none
    let apu_config_path :=
      if truthyOptS brew_apr_util_path then
        some (pjoin (pjoin (brew_apr_util_path.getD []) (strOf "bin"))
                (strOf "apu-1-config"))
      else none
    let brewSvnUsable :=
      truthyOptS brew_svn_path && w.pathExists (brew_svn_path.getD [])
    let xcode_apr_path :=
      strOf "/Library/Developer/CommandLineTools/SDKs/MacOSX.sdk/usr/include/apr-1"
    { config_args := base ++ [strOf "--link-python-framework-via-dynamic-lookup"]
      extra_apr_include_paths := [xcode_apr_path]
      extra_apr_lib_paths := []
      extra_apu_include_paths := [xcode_apr_path]
      extra_svn_bin_paths :=
        if brewSvnUsable then [pjoin (brew_svn_path.getD []) (strOf "bin")] else []
      extra_svn_include_paths :=
        if brewSvnUsable then
          [pjoin (pjoin (brew_svn_path.getD []) (strOf "include"))
             (strOf "subversion-1")]
        else []
      extra_svn_lib_paths :=
        if brewSvnUsable then [pjoin (brew_svn_path.getD []) (strOf "lib")] else []
      apr_config_path := apr_config_path
      apu_config_path := apu_config_path
      libapr_filename := some (strOf "libapr-1.dylib")
      libsvn_client_filename := some (strOf "libsvn_client-1.a") }
  else if w.system = strOf "Linux" then
    if w.getuser = strOf "bitnami" then
      { config_args := base
        extra_apr_include_paths := []
        extra_apr_lib_paths := []
        extra_apu_include_paths := []
        extra_svn_bin_paths := [strOf "/opt/bitnami/subversion/bin"]
        extra_svn_include_paths := [strOf "/opt/bitnami/subversion/include/subversion-1"]
        extra_svn_lib_paths := [strOf "/opt/bitnami/subversion/lib"]
        apr_config_path := some (strOf "/opt/bitnami/apache/bin/apr-1-config")
        apu_config_path := some (strOf "/opt/bitnami/apache/bin/apu-1-config")
        libapr_filename := some (strOf "libapr-1.so")
        libsvn_client_filename := some (strOf "libsvn_client-1.so") }
    else
      let linux_arch_dirs := get_linux_arch_dirs w
      { config_args := base
        extra_apr_include_paths := []
        extra_apr_lib_paths := linux_arch_dirs
        extra_apu_include_paths := []
        extra_svn_bin_paths := []
        extra_svn_include_paths := []
        extra_svn_lib_paths := linux_arch_dirs
        apr_config_path := none
        apu_config_path := none
        libapr_filename := some (strOf "libapr-1.so")
        libsvn_client_filename := some (strOf "libsvn_client-1.so") }
  else
    { config_args := base
      extra_apr_include_paths := []
      extra_apr_lib_paths := []
      extra_apu_include_paths := []
      extra_svn_bin_paths := []
      extra_svn_include_paths := []
      extra_svn_lib_paths := []
      apr_config_path := none
      apu_config_path := none
      libapr_filename := none
      libsvn_client_filename := none }

/-- The `apr-1-config` / `apu-1-config` step of `build_pysvn`: insert
the reported include directories at the front of their candidate lists
and append the APR `lib` directory. -/
def config_tool_dep_lists (w : World) (d : DepLists) : DepLists :=
  let d1 :=
    match d.apr_config_path with
    | some cp =>
      if !cp.isEmpty && w.pathExists cp then
        { d with
          extra_apr_include_paths :=
            w.configOutput cp (strOf "--includedir") :: d.extra_apr_include_paths
          extra_apr_lib_paths :=
            d.extra_apr_lib_paths ++
              [pjoin (w.configOutput cp (strOf "--prefix")) (strOf "lib")] }
      else d
    | none => d
  match d.apu_config_path with
  | some cp =>
    if !cp.isEmpty && w.pathExists cp then
      { d1 with
        extra_apu_include_paths :=
          w.configOutput cp (strOf "--includedir") :: d1.extra_apu_include_paths }
    else d1
  | none => d1

/-- The first candidate directory containing the marker file: models
the `for path in ...: if os.path.exists(os.path.join(path, marker)):
append; break` loops of `build_pysvn`. -/
def first_marker_dir (w : World) (paths : List Str) (marker : Str) : Option Str :=
  paths.find? (fun p => w.pathExists (pjoin p marker))

/-- A `--xxx-dir="path"` configure argument. -/
def dir_flag (flagName p : Str) : Str :=
  flagName ++ strOf "=\"" ++ p ++ [ '"' ]

/-- The configure arguments contributed by one scan loop: one flag for
the first matching candidate, or none. -/
def marker_flag_args (w : World) (paths : List Str) (marker flagName : Str) : List Str :=
  match first_marker_dir w paths marker with
  | some p => [dir_flag flagName p]
  | none => []

/-- The full `config_args` list of `build_pysvn`, base arguments
followed by the six scan loops (the two library loops only run when the
platform assigned a library filename). -/
def build_config_args (w : World) (pycxx_path : Str) : List Str :=
  let d := config_tool_dep_lists w (platform_dep_lists w pycxx_path)
  d.config_args
    ++ marker_flag_args w d.extra_apr_include_paths (strOf "apr.h") (strOf "--apr-inc-dir")
    ++ (match d.libapr_filename with
        | some fn => marker_flag_args w d.extra_apr_lib_paths fn (strOf "--apr-lib-dir")
        | none => [])
    ++ marker_flag_args w d.extra_apu_include_paths (strOf "apu.h") (strOf "--apu-inc-dir")
    ++ marker_flag_args w d.extra_svn_bin_paths (strOf "svn") (strOf "--svn-bin-dir")
    ++ marker_flag_args w d.extra_svn_include_paths (strOf "svn_client.h") (strOf "--svn-inc-dir")
    ++ (match d.libsvn_client_filename with
        | some fn => marker_flag_args w d.extra_svn_lib_paths fn (strOf "--svn-lib-dir")
        | none => [])

/-- The patch marker searched for in `setup.py`. -/
def config_token : Str := strOf "setup.py configure"

/-- Model of `build_pysvn`: locate the bundled PyCXX directory, check
and patch `setup.py`, then run the install or wheel-build subprocess,
returning its exit status. -/
def build_pysvn (w : World) (src_path : Str) (install : Bool) : Outcome Int :=
  let ev0 : List Ev := [Ev.chdir src_path]
  let import_path := pjoin src_path (strOf "Import")
  match w.globPycxx import_path with
  | [] =>
    Outcome.exited 1 (ev0 ++
      [Ev.stderrMsg (strOf "PySVN seems to be missing an Import/pycxx* directory"),
       Ev.stderrMsg report_msg])
  | pycxx_dirname :: _ =>
    let pycxx_path := pjoin import_path pycxx_dirname
    let setup_py_path := pjoin src_path (strOf "setup.py")
    let setup_py := w.readFile setup_py_path
    if ¬ hasSubstr config_token setup_py then
      Outcome.exited 1 (ev0 ++
        [Ev.stderrMsg (strOf "PySVN's setup.py can no longer be patched."),
         Ev.stderrMsg report_msg])
    else
      let config_args := build_config_args w pycxx_path
      let patched :=
        pyReplace config_token
          (config_token ++ strOf " " ++ List.intercalate (strOf " ") config_args)
          setup_py
      let cmd_args :=
        if install then [strOf "-m", strOf "pip", strOf "install", src_path]
        else [strOf "setup.py", strOf "bdist_wheel", strOf "--dist-dir", w.cwd]
      let result := w.subprocCall cmd_args
      Outcome.ok result
        (ev0 ++ [Ev.writeSetupPy setup_py_path patched, Ev.subprocess cmd_args])

/-- Command-line arguments as handed to `argparse`: an optional value
for each value flag, and whether `--build-only` was passed. -/
structure Cli where
  pysvn_version : Option Str
  file : Option Str
  build_only : Bool
deriving DecidableEq

/-- The three environment variables read by `main`. -/
structure Env where
  installer_version : Option Str
  installer_src_file : Option Str
  installer_build_only : Option Str
deriving DecidableEq

/-- The Python value held by `args.build_only`: `True` when the flag is
passed, otherwise the environment string, otherwise `False`. -/
inductive PyBoolStr where
  | pytrue
  | pyfalse
  | pystr (s : Str)
deriving DecidableEq

/-- Python truthiness of an `args.build_only` value. -/
def PyBoolStr.truthy : PyBoolStr → Bool
  | .pytrue => true
  | .pyfalse => false
  | .pystr s => !s.isEmpty

/-- The parsed argument namespace. -/
structure Args where
  pysvn_version : Option Str
  file : Option Str
  build_only : PyBoolStr
deriving DecidableEq

/-- Model of the `argparse` setup in `main`: each flag defaults to its
environment variable (`PYSVN_INSTALLER_VERSION`,
`PYSVN_INSTALLER_SRC_FILE`, `PYSVN_INSTALLER_BUILD_ONLY`). -/
def parse_args (cli : Cli) (env : Env) : Args :=
  { pysvn_version :=
      match cli.pysvn_version with
      | some v => some v
      | none => env.installer_version
    file :=
      match cli.file with
      | some f => some f
      | none => env.installer_src_file
    build_only :=
      if cli.build_only then PyBoolStr.pytrue
      else
        match env.installer_build_only with
        | some s => PyBoolStr.pystr s
        | none => PyBoolStr.pyfalse }

/-- The tarball-acquisition phase of `main`: use the `--file` tarball
when given, otherwise resolve the version (flag value, or feed lookup
with the `1.9.13 -> 1.9.12` remap) and download the archive. -/
def run_fetch_phase (args : Args) (w : World) : Outcome Str :=
  if truthyOptS args.file then
    let tarball_path := args.file.getD []
    if w.pathExists tarball_path then Outcome.ok tarball_path []
    else
      Outcome.exited 1
        [Ev.stderrMsg (strOf "The provided PySVN tarball does not exist.")]
  else
    let verOut : Outcome Str :=
      if truthyOptS args.pysvn_version then
        Outcome.ok (args.pysvn_version.getD []) []
      else
        match get_pysvn_version w with
        | Outcome.exited c e => Outcome.exited c e
        | Outcome.ok v e =>
          Outcome.ok (if v = strOf "1.9.13" then strOf "1.9.12" else v) e
    match verOut with
    | Outcome.exited c e => Outcome.exited c e
    | Outcome.ok pysvn_version e =>
      match fetch_pysvn w pysvn_version with
      | Outcome.exited c e2 => Outcome.exited c (e ++ e2)
      | Outcome.ok t e2 => Outcome.ok t (e ++ e2)

/-- Result of a whole run: the process exit code, the event trace, and
whether the temporary directory was removed on exit (the `atexit` hook
fires exactly when registration preceded the exit). -/
structure MainRes where
  exitCode : Int
  events : List Ev
  tempRemoved : Bool
deriving DecidableEq

/-- Builds the run result at a process exit point: the `atexit` hook
removes the temporary directory exactly when `atexit.register` is among
the events already performed. -/
def mk_result (code : Int) (evs : List Ev) : MainRes :=
  { exitCode := code, events := evs, tempRemoved := decide (Ev.registerCleanup ∈ evs) }

/-- The remediation hints printed when the build subprocess fails. -/
def failure_advice : List Ev :=
  [Ev.stderrMsg
    (strOf "PySVN failed to install. You might be missing some dependencies.")]

namespace Install

/-- Model of `main`: parse arguments, create and register the temporary
directory, acquire the tarball, extract it and build, reporting exit
code 0 on success and 1 on every failure path. -/
def main (cli : Cli) (env : Env) (w : World) : MainRes :=
  let args := parse_args cli env
  let pre : List Ev := [Ev.mkdTemp, Ev.registerCleanup]
  match run_fetch_phase args w with
  | Outcome.exited c e => mk_result c (pre ++ e)
  | Outcome.ok tarball_path e1 =>
    match extract_pysvn w tarball_path with
    | Outcome.exited c e2 => mk_result c (pre ++ e1 ++ e2)
    | Outcome.ok src_path e2 =>
      match build_pysvn w src_path (!args.build_only.truthy) with
      | Outcome.exited c e3 => mk_result c (pre ++ e1 ++ e2 ++ e3)
      | Outcome.ok retcode e3 =>
        if retcode = 0 then mk_result 0 (pre ++ e1 ++ e2 ++ e3)
        else mk_result 1 (pre ++ e1 ++ e2 ++ e3 ++ failure_advice)

end Install

/-- The events of a step outcome, whether it exited or returned. -/
def Outcome.events : Outcome α → List Ev
  | .exited _ e => e
  | .ok _ e => e

/-- Network events: the feed fetch of `get_pysvn_version` and the
archive download of `fetch_pysvn`. -/
def Ev.isNetwork : Ev → Bool
  | .fetchFeed => true
  | .fetchArchive _ => true
  | _ => false

/-- File-writing events of the build step. -/
def Ev.isWrite : Ev → Bool
  | .writeSetupPy _ _ => true
  | _ => false

/-- Subprocess invocations of the build step. -/
def Ev.isSubproc : Ev → Bool
  | .subprocess _ => true
  | _ => false

theorem get_pysvn_version_exited (w : World) (c : Int) (e : List Ev)
    (h : get_pysvn_version w = Outcome.exited c e) :
    c = 1 ∧ ∃ m, Ev.stderrMsg m ∈ e := by
  simp only [get_pysvn_version] at h
  split at h
  · cases h
    exact ⟨rfl, strOf "Unable to fetch PySVN downloads RSS feed.", by simp⟩
  · split at h
    · cases h
      exact ⟨rfl, strOf "Unable to find latest PySVN version in RSS feed.", by simp⟩
    · cases h

theorem fetch_pysvn_exited (w : World) (v : Str) (c : Int) (e : List Ev)
    (h : fetch_pysvn w v = Outcome.exited c e) :
    c = 1 ∧ ∃ m, Ev.stderrMsg m ∈ e := by
  simp only [fetch_pysvn] at h
  split at h
  · cases h
  · cases h
    exact ⟨rfl, strOf "Unable to fetch PySVN.", by simp⟩

theorem run_fetch_phase_exited (args : Args) (w : World) (c : Int) (e : List Ev)
    (h : run_fetch_phase args w = Outcome.exited c e) :
    c = 1 ∧ ∃ m, Ev.stderrMsg m ∈ e := by
  simp only [run_fetch_phase] at h
  split at h
  · split at h
    · cases h
    · cases h
      exact ⟨rfl, strOf "The provided PySVN tarball does not exist.", by simp⟩
  · split at h
    · rename_i heq
      split at heq
      · cases heq
      · split at heq
        · rename_i hgv
          cases heq
          cases h
          exact get_pysvn_version_exited w _ _ hgv
        · cases heq
    · rename_i v e1 heq
      split at h
      · rename_i hfp
        cases h
        obtain ⟨hc, m, hm⟩ := fetch_pysvn_exited w _ _ _ hfp
        exact ⟨hc, m, by simp [hm]⟩
      · cases h

theorem extract_pysvn_exited (w : World) (tb : Str) (c : Int) (e : List Ev)
    (h : extract_pysvn w tb = Outcome.exited c e) :
    c = 1 ∧ ∃ m, Ev.stderrMsg m ∈ e := by
  simp only [extract_pysvn] at h
  split at h
  · split at h
    · cases h
      exact ⟨rfl, strOf "Unable to find pysvn-* directory in tarball.", by simp⟩
    · cases h
  · cases h
    exact ⟨rfl, strOf "Attempted Path Traversal in Tar File", by simp⟩

theorem build_pysvn_exited (w : World) (src : Str) (install : Bool) (c : Int) (e : List Ev)
    (h : build_pysvn w src install = Outcome.exited c e) :
    c = 1 ∧ ∃ m, Ev.stderrMsg m ∈ e := by
  simp only [build_pysvn] at h
  split at h
  · cases h
    exact ⟨rfl, strOf "PySVN seems to be missing an Import/pycxx* directory", by simp⟩
  · split at h
    · cases h
      exact ⟨rfl, strOf "PySVN's setup.py can no longer be patched.", by simp⟩
    · cases h

theorem extract_pysvn_events_classes (w : World) (tb : Str) :
    ∀ ev ∈ (extract_pysvn w tb).events,
      ev.isNetwork = false ∧ ev.isWrite = false ∧ ev.isSubproc = false := by
  simp only [extract_pysvn]
  split
  · split
    · simp [Outcome.events, Ev.isNetwork, Ev.isWrite, Ev.isSubproc]
    · simp [Outcome.events, Ev.isNetwork, Ev.isWrite, Ev.isSubproc]
  · simp [Outcome.events, Ev.isNetwork, Ev.isWrite, Ev.isSubproc]

theorem build_pysvn_events_no_net (w : World) (src : Str) (install : Bool) :
    ∀ ev ∈ (build_pysvn w src install).events, ev.isNetwork = false := by
  simp only [build_pysvn]
  split
  · simp [Outcome.events, Ev.isNetwork]
  · split
    · simp [Outcome.events, Ev.isNetwork]
    · simp [Outcome.events, Ev.isNetwork]

theorem run_fetch_phase_events_no_build (args : Args) (w : World) :
    ∀ ev ∈ (run_fetch_phase args w).events,
      ev.isWrite = false ∧ ev.isSubproc = false := by
  simp only [run_fetch_phase]
  split
  · split
    · simp [Outcome.events]
    · simp [Outcome.events, Ev.isWrite, Ev.isSubproc]
  · split
    · rename_i heq
      split at heq
      · cases heq
      · split at heq
        · rename_i hgv
          cases heq
          simp only [get_pysvn_version] at hgv
          split at hgv
          · cases hgv
            simp [Outcome.events, Ev.isWrite, Ev.isSubproc]
          · split at hgv
            · cases hgv
              simp [Outcome.events, Ev.isWrite, Ev.isSubproc]
            · cases hgv
        · cases heq
    · rename_i v e1 heq
      have he1 : ∀ ev ∈ e1, ev.isWrite = false ∧ ev.isSubproc = false := by
        split at heq
        · cases heq
          simp
        · split at heq
          · cases heq
          · rename_i hgv
            cases heq
            simp only [get_pysvn_version] at hgv
            split at hgv
            · cases hgv
            · split at hgv
              · cases hgv
              · cases hgv
                simp [Ev.isWrite, Ev.isSubproc]
      have hfp : ∀ ev ∈ (fetch_pysvn w v).events,
          ev.isWrite = false ∧ ev.isSubproc = false := by
        simp only [fetch_pysvn]
        split
        · simp [Outcome.events, Ev.isWrite, Ev.isSubproc]
        · simp [Outcome.events, Ev.isWrite, Ev.isSubproc]
      split
      · rename_i hf
        rw [hf] at hfp
        simp only [Outcome.events] at hfp ⊢
        intro ev hv
        rcases List.mem_append.1 hv with h1 | h2
        · exact he1 ev h1
        · exact hfp ev h2
      · rename_i hf
        rw [hf] at hfp
        simp only [Outcome.events] at hfp ⊢
        intro ev hv
        rcases List.mem_append.1 hv with h1 | h2
        · exact he1 ev h1
        · exact hfp ev h2

theorem run_fetch_phase_file_no_net (args : Args) (w : World)
    (hfile : truthyOptS args.file = true) :
    ∀ ev ∈ (run_fetch_phase args w).events, ev.isNetwork = false := by
  simp only [run_fetch_phase, hfile, if_true]
  split
  · simp [Outcome.events]
  · simp [Outcome.events, Ev.isNetwork]

theorem main_events_decomp (cli : Cli) (env : Env) (w : World) (ev : Ev)
    (hv : ev ∈ (Install.main cli env w).events) :
    ev = Ev.mkdTemp ∨ ev = Ev.registerCleanup
    ∨ ev ∈ (run_fetch_phase (parse_args cli env) w).events
    ∨ (∃ tb e1, run_fetch_phase (parse_args cli env) w = Outcome.ok tb e1
        ∧ ev ∈ (extract_pysvn w tb).events)
    ∨ (∃ tb e1 src e2, run_fetch_phase (parse_args cli env) w = Outcome.ok tb e1
        ∧ extract_pysvn w tb = Outcome.ok src e2
        ∧ ev ∈ (build_pysvn w src (!(parse_args cli env).build_only.truthy)).events)
    ∨ ev ∈ failure_advice := by
  simp only [Install.main] at hv
  split at hv
  · rename_i c e hfp
    simp only [mk_result, List.cons_append, List.nil_append, List.mem_cons] at hv
    rcases hv with rfl | rfl | hv
    · exact Or.inl rfl
    · exact Or.inr (Or.inl rfl)
    · exact Or.inr (Or.inr (Or.inl (by rw [hfp]; exact hv)))
  · rename_i tb e1 hfp
    split at hv
    · rename_i c e2 hex
      simp only [mk_result, List.append_assoc, List.cons_append, List.nil_append,
        List.mem_cons, List.mem_append] at hv
      rcases hv with rfl | rfl | hv | hv
      · exact Or.inl rfl
      · exact Or.inr (Or.inl rfl)
      · exact Or.inr (Or.inr (Or.inl (by rw [hfp]; exact hv)))
      · exact Or.inr (Or.inr (Or.inr (Or.inl ⟨tb, e1, hfp, by rw [hex]; exact hv⟩)))
    · rename_i src e2 hex
      split at hv
      · rename_i c e3 hb
        simp only [mk_result, List.append_assoc, List.cons_append, List.nil_append,
          List.mem_cons, List.mem_append] at hv
        rcases hv with rfl | rfl | hv | hv | hv
        · exact Or.inl rfl
        · exact Or.inr (Or.inl rfl)
        · exact Or.inr (Or.inr (Or.inl (by rw [hfp]; exact hv)))
        · exact Or.inr (Or.inr (Or.inr (Or.inl ⟨tb, e1, hfp, by rw [hex]; exact hv⟩)))
        · exact Or.inr (Or.inr (Or.inr (Or.inr (Or.inl
            ⟨tb, e1, src, e2, hfp, hex, by rw [hb]; exact hv⟩))))
      · rename_i ret e3 hb
        split at hv
        · simp only [mk_result, List.append_assoc, List.cons_append, List.nil_append,
            List.mem_cons, List.mem_append] at hv
          rcases hv with rfl | rfl | hv | hv | hv
          · exact Or.inl rfl
          · exact Or.inr (Or.inl rfl)
          · exact Or.inr (Or.inr (Or.inl (by rw [hfp]; exact hv)))
          · exact Or.inr (Or.inr (Or.inr (Or.inl ⟨tb, e1, hfp, by rw [hex]; exact hv⟩)))
          · exact Or.inr (Or.inr (Or.inr (Or.inr (Or.inl
              ⟨tb, e1, src, e2, hfp, hex, by rw [hb]; exact hv⟩))))
        · simp only [mk_result, List.append_assoc, List.cons_append, List.nil_append,
            List.mem_cons, List.mem_append] at hv
          rcases hv with rfl | rfl | hv | hv | hv | hv
          · exact Or.inl rfl
          · exact Or.inr (Or.inl rfl)
          · exact Or.inr (Or.inr (Or.inl (by rw [hfp]; exact hv)))
          · exact Or.inr (Or.inr (Or.inr (Or.inl ⟨tb, e1, hfp, by rw [hex]; exact hv⟩)))
          · exact Or.inr (Or.inr (Or.inr (Or.inr (Or.inl
              ⟨tb, e1, src, e2, hfp, hex, by rw [hb]; exact hv⟩))))
          · exact Or.inr (Or.inr (Or.inr (Or.inr (Or.inr hv))))

/-- A concrete environment for witness instantiations: a Linux host on
which every queried path exists, the feed advertises version 1.9.13,
and all subprocesses succeed. -/
def sampleWorld : World :=
  { cwd := strOf "/home/u"
    tempPath := strOf "/tmp/t.pysvn-install"
    feed := some (strOf "<link>a/files/pysvn/V1.9.13/pysvn-1.9.13.tar.gz/download</link>")
    archiveFetchOk := fun _ => true
    pathExists := fun _ => true
    tarMembers := fun _ => [strOf "pysvn-1.9.12/setup.py"]
    globPysvn := [strOf "/tmp/t.pysvn-install/pysvn-1.9.12"]
    globPycxx := fun p => [pjoin p (strOf "pycxx-7.1.5")]
    readFile := fun _ => strOf "run: setup.py configure --verbose"
    system := strOf "Linux"
    brewPrefix := fun _ => none
    getuser := strOf "u"
    gccMachine := none
    configOutput := fun _ _ => strOf "/usr/include/apr-1"
    subprocCall := fun _ => 0 }

/-- Empty command line, used by witnesses. -/
def cliNone : Cli := { pysvn_version := none, file := none, build_only := false }

/-- Empty environment-variable set, used by witnesses. -/
def envNone : Env :=
  { installer_version := none, installer_src_file := none, installer_build_only := none }

/-- C7: on every run, the temporary directory is created first, the
cleanup hook is registered as the immediately following action (before
any operation that can fail), and the hook removes the temporary
directory on every exit path, successful or not. -/
theorem main_temp_dir_cleanup (cli : Cli) (env : Env) (w : World) :
    (Install.main cli env w).events.take 2 = [Ev.mkdTemp, Ev.registerCleanup]
    ∧ (Install.main cli env w).tempRemoved = true := by
  simp only [Install.main]
  split
  · simp [mk_result]
  · split
    · simp [mk_result]
    · split
      · simp [mk_result]
      · split <;> simp [mk_result]

/-- C2: when a local source archive is supplied (a non-empty `--file`
value or its environment equivalent), the run performs no network
operation: neither the feed fetch nor the archive download appears in
the trace. -/
theorem local_file_skips_network (cli : Cli) (env : Env) (w : World) (f : Str)
    (hf : (parse_args cli env).file = some f) (hne : f ≠ []) :
    ∀ ev ∈ (Install.main cli env w).events, ev.isNetwork = false := by
  have hfile : truthyOptS (parse_args cli env).file = true := by
    rw [hf]
    cases f with
    | nil => exact absurd rfl hne
    | cons a l => rfl
  intro ev hv
  rcases main_events_decomp cli env w ev hv with
    rfl | rfl | h | ⟨tb, e1, _, h⟩ | ⟨tb, e1, src, e2, _, _, h⟩ | h
  · rfl
  · rfl
  · exact run_fetch_phase_file_no_net _ w hfile ev h
  · exact (extract_pysvn_events_classes w tb ev h).1
  · exact build_pysvn_events_no_net w src _ ev h
  · simp only [failure_advice, List.mem_singleton] at h
    subst h
    rfl

/-- Witness for C2: a run with `--file /x.tar.gz` on the sample world
reaches extraction, and the theorem applies to it. -/
theorem local_file_skips_network_witness :
    Ev.extractAll ∈ (Install.main
      { pysvn_version := none, file := some (strOf "/x.tar.gz"), build_only := false }
      envNone sampleWorld).events
    ∧ Ev.extractAll.isNetwork = false :=
  ⟨by decide,
   local_file_skips_network
     { pysvn_version := none, file := some (strOf "/x.tar.gz"), build_only := false }
     envNone sampleWorld (strOf "/x.tar.gz") (by decide) (by decide)
     Ev.extractAll (by decide)⟩

/-- C5: when the extracted tree's `setup.py` does not contain the
literal marker `setup.py configure`, the run prints the diagnostic to
standard error and exits with code 1, without writing `setup.py` back
and without starting the build/install subprocess. -/
theorem missing_marker_aborts (cli : Cli) (env : Env) (w : World) (tb src : Str)
    (e1 e2 : List Ev) (d : Str) (rest : List Str)
    (hfp : run_fetch_phase (parse_args cli env) w = Outcome.ok tb e1)
    (hex : extract_pysvn w tb = Outcome.ok src e2)
    (hpy : w.globPycxx (pjoin src (strOf "Import")) = d :: rest)
    (hmk : hasSubstr config_token (w.readFile (pjoin src (strOf "setup.py"))) = false) :
    (Install.main cli env w).exitCode = 1
    ∧ Ev.stderrMsg (strOf "PySVN's setup.py can no longer be patched.")
        ∈ (Install.main cli env w).events
    ∧ (∀ p c, Ev.writeSetupPy p c ∉ (Install.main cli env w).events)
    ∧ (∀ a, Ev.subprocess a ∉ (Install.main cli env w).events) := by
  have hb : build_pysvn w src (!(parse_args cli env).build_only.truthy) =
      Outcome.exited 1 ([Ev.chdir src] ++
        [Ev.stderrMsg (strOf "PySVN's setup.py can no longer be patched."),
         Ev.stderrMsg report_msg]) := by
    simp only [build_pysvn, hpy, hmk]
    simp
  have hmain : Install.main cli env w =
      mk_result 1 ([Ev.mkdTemp, Ev.registerCleanup] ++ e1 ++ e2 ++
        ([Ev.chdir src] ++
         [Ev.stderrMsg (strOf "PySVN's setup.py can no longer be patched."),
          Ev.stderrMsg report_msg])) := by
    simp only [Install.main, hfp, hex, hb]
  rw [hmain]
  refine ⟨rfl, by simp [mk_result], ?_, ?_⟩
  · intro p c hmem
    simp only [mk_result, List.mem_append, List.append_assoc, List.cons_append,
      List.nil_append, List.mem_cons] at hmem
    rcases hmem with h | h | h | h | h | h | h | h
    · cases h
    · cases h
    · have := (run_fetch_phase_events_no_build (parse_args cli env) w
        (Ev.writeSetupPy p c) (by rw [hfp]; exact h)).1
      simp [Ev.isWrite] at this
    · have := ((extract_pysvn_events_classes w tb
        (Ev.writeSetupPy p c) (by rw [hex]; exact h)).2).1
      simp [Ev.isWrite] at this
    · cases h
    · cases h
    · cases h
    · simp at h
  · intro a hmem
    simp only [mk_result, List.mem_append, List.append_assoc, List.cons_append,
      List.nil_append, List.mem_cons] at hmem
    rcases hmem with h | h | h | h | h | h | h | h
    · cases h
    · cases h
    · have := (run_fetch_phase_events_no_build (parse_args cli env) w
        (Ev.subprocess a) (by rw [hfp]; exact h)).2
      simp [Ev.isSubproc] at this
    · have := ((extract_pysvn_events_classes w tb
        (Ev.subprocess a) (by rw [hex]; exact h)).2).2
      simp [Ev.isSubproc] at this
    · cases h
    · cases h
    · cases h
    · simp at h

/-- Sample world whose `setup.py` lacks the patch marker. -/
def wNoMarker : World :=
  { sampleWorld with readFile := fun _ => strOf "#!/usr/bin/env python" }

/-- Command line passing `--file /x.tar.gz`, used by witnesses. -/
def cliFileX : Cli :=
  { pysvn_version := none, file := some (strOf "/x.tar.gz"), build_only := false }

/-- Witness for C5: a concrete run whose `setup.py` lacks the marker
exits with code 1 and the diagnostic. -/
theorem missing_marker_aborts_witness :
    (Install.main cliFileX envNone wNoMarker).exitCode = 1
    ∧ Ev.stderrMsg (strOf "PySVN's setup.py can no longer be patched.")
        ∈ (Install.main cliFileX envNone wNoMarker).events := by
  have T := missing_marker_aborts cliFileX envNone wNoMarker
    (strOf "/x.tar.gz") (strOf "/tmp/t.pysvn-install/pysvn-1.9.12")
    [] [Ev.extractAll]
    (pjoin (pjoin (strOf "/tmp/t.pysvn-install/pysvn-1.9.12") (strOf "Import"))
      (strOf "pycxx-7.1.5"))
    []
    (by decide) (by decide) (by decide) (by decide)
  exact ⟨T.1, T.2.1⟩

theorem build_pysvn_subproc_args (w : World) (src : Str) (install : Bool) :
    ∀ a, Ev.subprocess a ∈ (build_pysvn w src install).events →
      a = (if install then [strOf "-m", strOf "pip", strOf "install", src]
           else [strOf "setup.py", strOf "bdist_wheel", strOf "--dist-dir", w.cwd]) := by
  simp only [build_pysvn]
  split
  · simp [Outcome.events]
  · split
    · simp [Outcome.events]
    · intro a ha
      simp only [Outcome.events, List.cons_append, List.nil_append, List.mem_cons,
        List.not_mem_nil] at ha
      rcases ha with h | h | h
      · cases h
      · cases h
      · rcases h with h | h
        · simpa using h
        · cases h

/-- C6: in build-only mode the run never invokes `pip install`; the only
subprocess it can start is the wheel build with `--dist-dir` set to the
working directory recorded at startup, and when the build step is
reached that subprocess is started. -/
theorem build_only_uses_bdist (cli : Cli) (env : Env) (w : World)
    (hbo : (parse_args cli env).build_only.truthy = true) :
    (∀ a, Ev.subprocess a ∈ (Install.main cli env w).events →
       a = [strOf "setup.py", strOf "bdist_wheel", strOf "--dist-dir", w.cwd])
    ∧ (∀ tb e1 src e2 d rest,
         run_fetch_phase (parse_args cli env) w = Outcome.ok tb e1 →
         extract_pysvn w tb = Outcome.ok src e2 →
         w.globPycxx (pjoin src (strOf "Import")) = d :: rest →
         hasSubstr config_token (w.readFile (pjoin src (strOf "setup.py"))) = true →
         Ev.subprocess [strOf "setup.py", strOf "bdist_wheel", strOf "--dist-dir", w.cwd]
           ∈ (Install.main cli env w).events) := by
  constructor
  · intro a ha
    rcases main_events_decomp cli env w (Ev.subprocess a) ha with
      h | h | h | ⟨tb, e1, _, h⟩ | ⟨tb, e1, src, e2, _, _, h⟩ | h
    · simp at h
    · simp at h
    · have := (run_fetch_phase_events_no_build _ w _ h).2
      simp [Ev.isSubproc] at this
    · have := (extract_pysvn_events_classes w tb _ h).2.2
      simp [Ev.isSubproc] at this
    · have := build_pysvn_subproc_args w src _ a h
      rw [hbo] at this
      simpa using this
    · simp [failure_advice] at h
  · intro tb e1 src e2 d rest hfp hex hpy hmk
    simp only [Install.main, hfp, hex, hbo, Bool.not_true, build_pysvn, hpy, hmk]
    simp only [Bool.not_eq_true, if_false, Bool.false_eq_true, not_true_eq_false]
    split <;> simp [mk_result]

/-- Command line passing `--file /x.tar.gz --build-only`. -/
def cliFileBO : Cli :=
  { pysvn_version := none, file := some (strOf "/x.tar.gz"), build_only := true }

/-- Witness for C6: a build-only run on the sample world starts the
wheel-build subprocess with the startup working directory as
`--dist-dir`. -/
theorem build_only_uses_bdist_witness :
    Ev.subprocess [strOf "setup.py", strOf "bdist_wheel", strOf "--dist-dir",
        strOf "/home/u"]
      ∈ (Install.main cliFileBO envNone sampleWorld).events := by
  have T := build_only_uses_bdist cliFileBO envNone sampleWorld (by decide)
  exact T.2 (strOf "/x.tar.gz") [] (strOf "/tmp/t.pysvn-install/pysvn-1.9.12")
    [Ev.extractAll]
    (pjoin (pjoin (strOf "/tmp/t.pysvn-install/pysvn-1.9.12") (strOf "Import"))
      (strOf "pycxx-7.1.5"))
    [] (by decide) (by decide) (by decide) (by decide)

theorem fetch_pysvn_has_archive (w : World) (v : Str) :
    Ev.fetchArchive v ∈ (fetch_pysvn w v).events := by
  simp only [fetch_pysvn]
  split <;> simp [Outcome.events]

theorem main_contains_fetch_events (cli : Cli) (env : Env) (w : World) (ev : Ev)
    (h : ev ∈ (run_fetch_phase (parse_args cli env) w).events) :
    ev ∈ (Install.main cli env w).events := by
  simp only [Install.main]
  split
  · rename_i c e hfp
    rw [hfp] at h
    simp [mk_result, Outcome.events] at h ⊢
    exact Or.inr (Or.inr h)
  · rename_i tb e1 hfp
    rw [hfp] at h
    simp only [Outcome.events] at h
    split
    · simp [mk_result]
      exact Or.inr (Or.inr (Or.inl h))
    · split
      · simp [mk_result]
        exact Or.inr (Or.inr (Or.inl h))
      · split
        · simp [mk_result]
          exact Or.inr (Or.inr (Or.inl h))
        · simp [mk_result]
          exact Or.inr (Or.inr (Or.inl h))

/-- C3: with no local file, the version installed is the capture group
of the first `VERSION_RE` match over the fetched feed, except that a
discovered `1.9.13` is replaced by `1.9.12`; an explicitly supplied
version is downloaded verbatim, without the remap. -/
theorem version_resolution (cli : Cli) (env : Env) (w : World) (data v : Str) :
    (truthyOptS (parse_args cli env).file = false →
      truthyOptS (parse_args cli env).pysvn_version = false →
      w.feed = some data → reSearch data = some v →
      Ev.fetchArchive (if v = strOf "1.9.13" then strOf "1.9.12" else v)
        ∈ (Install.main cli env w).events)
    ∧ (∀ v', (parse_args cli env).pysvn_version = some v' → v' ≠ [] →
        truthyOptS (parse_args cli env).file = false →
        Ev.fetchArchive v' ∈ (Install.main cli env w).events) := by
  constructor
  · intro hfile hver hfeed hre
    apply main_contains_fetch_events
    have hgv : get_pysvn_version w = Outcome.ok v [Ev.fetchFeed] := by
      simp only [get_pysvn_version, hfeed, hre]
    have harch := fetch_pysvn_has_archive w
      (if v = strOf "1.9.13" then strOf "1.9.12" else v)
    simp only [run_fetch_phase, hfile, hver, hgv, Bool.false_eq_true, if_false]
    split
    · rename_i hfp
      rw [hfp] at harch
      simp only [Outcome.events] at harch ⊢
      simp [harch]
    · rename_i hfp
      rw [hfp] at harch
      simp only [Outcome.events] at harch ⊢
      simp [harch]
  · intro v' hv' hne hfile
    apply main_contains_fetch_events
    have htv : truthyOptS (some v') = true := by
      cases v' with
      | nil => exact absurd rfl hne
      | cons a l => rfl
    have harch := fetch_pysvn_has_archive w v'
    simp only [run_fetch_phase, hfile, hv', htv, Bool.false_eq_true, if_false, if_true,
      Option.getD_some]
    split
    · rename_i hfp
      rw [hfp] at harch
      simpa [Outcome.events] using harch
    · rename_i hfp
      rw [hfp] at harch
      simpa [Outcome.events] using harch

/-- Command line passing `--pysvn-version 1.9.13`. -/
def cliVer1913 : Cli :=
  { pysvn_version := some (strOf "1.9.13"), file := none, build_only := false }

/-- Witness for C3: on the sample feed the discovered `1.9.13` is
downloaded as `1.9.12`, while the same version passed explicitly is
downloaded verbatim. -/
theorem version_resolution_witness :
    Ev.fetchArchive (strOf "1.9.12") ∈ (Install.main cliNone envNone sampleWorld).events
    ∧ Ev.fetchArchive (strOf "1.9.13")
        ∈ (Install.main cliVer1913 envNone sampleWorld).events := by
  constructor
  · have T := (version_resolution cliNone envNone sampleWorld
      (strOf "<link>a/files/pysvn/V1.9.13/pysvn-1.9.13.tar.gz/download</link>")
      (strOf "1.9.13")).1 (by decide) (by decide) (by decide) (by decide)
    simpa using T
  · exact (version_resolution cliVer1913 envNone sampleWorld [] []).2
      (strOf "1.9.13") (by decide) (by decide) (by decide)

/-- C4: every run exits with code 0 or 1; the code is 0 exactly when
the tarball is acquired, extraction succeeds and the build subprocess
returns 0; and every exit with code 1 is accompanied by a message on
standard error. -/
theorem exit_code_discipline (cli : Cli) (env : Env) (w : World) :
    ((Install.main cli env w).exitCode = 0 ∨ (Install.main cli env w).exitCode = 1)
    ∧ ((Install.main cli env w).exitCode = 0 ↔
        ∃ tb e1 src e2 e3,
          run_fetch_phase (parse_args cli env) w = Outcome.ok tb e1
          ∧ extract_pysvn w tb = Outcome.ok src e2
          ∧ build_pysvn w src (!(parse_args cli env).build_only.truthy)
              = Outcome.ok 0 e3)
    ∧ ((Install.main cli env w).exitCode = 1 →
        ∃ m, Ev.stderrMsg m ∈ (Install.main cli env w).events) := by
  simp only [Install.main]
  split
  · rename_i c e hfp
    obtain ⟨hc, m, hm⟩ := run_fetch_phase_exited _ w c e hfp
    subst hc
    refine ⟨Or.inr rfl, ?_, ?_⟩
    · simp only [mk_result]
      constructor
      · intro h
        exact absurd h (by decide)
      · rintro ⟨tb, e1, src, e2, e3, h, -, -⟩
        rw [hfp] at h
        cases h
    · intro _
      exact ⟨m, by simp [mk_result, hm]⟩
  · rename_i tb e1 hfp
    split
    · rename_i c e2 hex
      obtain ⟨hc, m, hm⟩ := extract_pysvn_exited w tb c e2 hex
      subst hc
      refine ⟨Or.inr rfl, ?_, ?_⟩
      · simp only [mk_result]
        constructor
        · intro h
          exact absurd h (by decide)
        · rintro ⟨tb', e1', src, e2', e3, h, h2, -⟩
          rw [hfp] at h
          cases h
          rw [hex] at h2
          cases h2
      · intro _
        exact ⟨m, by simp [mk_result, hm]⟩
    · rename_i src e2 hex
      split
      · rename_i c e3 hb
        obtain ⟨hc, m, hm⟩ := build_pysvn_exited w src _ c e3 hb
        subst hc
        refine ⟨Or.inr rfl, ?_, ?_⟩
        · simp only [mk_result]
          constructor
          · intro h
            exact absurd h (by decide)
          · rintro ⟨tb', e1', src', e2', e3', h, h2, h3⟩
            rw [hfp] at h
            cases h
            rw [hex] at h2
            cases h2
            rw [hb] at h3
            cases h3
        · intro _
          exact ⟨m, by simp [mk_result, hm]⟩
      · rename_i ret e3 hb
        split
        · rename_i hret
          subst hret
          refine ⟨Or.inl rfl, ?_, ?_⟩
          · simp only [mk_result]
            constructor
            · intro _
              exact ⟨tb, e1, src, e2, e3, hfp, hex, hb⟩
            · intro _
              trivial
          · intro h
            simp [mk_result] at h
        · rename_i hret
          refine ⟨Or.inr rfl, ?_, ?_⟩
          · simp only [mk_result]
            constructor
            · intro h
              exact absurd h (by decide)
            · rintro ⟨tb', e1', src', e2', e3', h, h2, h3⟩
              rw [hfp] at h
              cases h
              rw [hex] at h2
              cases h2
              rw [hb] at h3
              injection h3 with h4
              exact absurd h4 hret
          · intro _
            refine ⟨strOf "PySVN failed to install. You might be missing some dependencies.", ?_⟩
            simp [mk_result, failure_advice]

/-- Sample world on which no path exists, so a provided tarball is
reported missing. -/
def wNoFile : World := { sampleWorld with pathExists := fun _ => false }

/-- Witness for C4: a failing run (missing tarball) exits 1 with a
diagnostic on standard error, and a fully successful run exits 0. -/
theorem exit_code_discipline_witness :
    (∃ m, Ev.stderrMsg m ∈ (Install.main cliFileX envNone wNoFile).events)
    ∧ (∃ tb e1 src e2 e3,
        run_fetch_phase (parse_args cliFileX envNone) sampleWorld = Outcome.ok tb e1
        ∧ extract_pysvn sampleWorld tb = Outcome.ok src e2
        ∧ build_pysvn sampleWorld src
            (!(parse_args cliFileX envNone).build_only.truthy) = Outcome.ok 0 e3) :=
  ⟨(exit_code_discipline cliFileX envNone wNoFile).2.2 (by decide),
   (exit_code_discipline cliFileX envNone sampleWorld).2.1.mp (by decide)⟩

theorem commonPrefixOf_eq_left (a : Str) : ∀ b : Str, (commonPrefixOf a b = a ↔ a <+: b) := by
  induction a with
  | nil =>
    intro b
    constructor
    · intro _
      exact List.nil_prefix
    · intro _
      cases b <;> rfl
  | cons x xs ih =>
    intro b
    cases b with
    | nil =>
      simp only [commonPrefixOf, List.prefix_nil]
      constructor
      · intro h
        cases h
      · intro h
        cases h
    | cons y ys =>
      simp only [commonPrefixOf, List.cons_prefix_cons]
      by_cases hxy : x = y
      · subst hxy
        simp only [if_pos rfl, if_true, List.cons.injEq, true_and]
        exact ih ys
      · simp only [if_neg hxy]
        constructor
        · intro h
          cases h
        · rintro ⟨h, -⟩
          exact absurd h hxy

/-- C1 (amended): the extraction guard is a character-wise prefix
check on absolute paths.  If any member fails it, the run raises before
anything is extracted; extraction happens exactly when every member
passes it; and any member that resolves inside the directory passes it
(the converse fails: see the counterexample). -/
theorem extract_guard_prefix_check (w : World) (tb : Str) :
    ((∃ m ∈ w.tarMembers tb,
        is_within_directory w.cwd w.tempPath (pjoin w.tempPath m) = false) →
      extract_pysvn w tb =
        Outcome.exited 1 [Ev.stderrMsg (strOf "Attempted Path Traversal in Tar File")]
      ∧ Ev.extractAll ∉ (extract_pysvn w tb).events)
    ∧ (Ev.extractAll ∈ (extract_pysvn w tb).events ↔
        ∀ m ∈ w.tarMembers tb,
          is_within_directory w.cwd w.tempPath (pjoin w.tempPath m) = true)
    ∧ (∀ cwd dir m, resolvesInsideDir cwd dir m = true →
        is_within_directory cwd dir (pjoin dir m) = true) := by
  refine ⟨?_, ?_, ?_⟩
  · rintro ⟨m, hm, hbad⟩
    have hall : ((w.tarMembers tb).all
        (fun m => is_within_directory w.cwd w.tempPath (pjoin w.tempPath m))) = false := by
      rw [Bool.eq_false_iff]
      intro hA
      rw [List.all_eq_true] at hA
      exact absurd (hA m hm) (by simp [hbad])
    constructor
    · simp only [extract_pysvn, hall, Bool.false_eq_true, if_false]
    · simp only [extract_pysvn, hall, Bool.false_eq_true, if_false, Outcome.events]
      simp
  · by_cases hall : ((w.tarMembers tb).all
        (fun m => is_within_directory w.cwd w.tempPath (pjoin w.tempPath m))) = true
    · rw [List.all_eq_true] at hall
      constructor
      · intro _
        exact hall
      · intro _
        have hallB : ((w.tarMembers tb).all
            (fun m => is_within_directory w.cwd w.tempPath (pjoin w.tempPath m))) = true :=
          List.all_eq_true.mpr hall
        simp only [extract_pysvn, hallB, if_true]
        cases hglob : w.globPysvn with
        | nil => simp [Outcome.events]
        | cons d tl => simp [Outcome.events]
    · rw [Bool.not_eq_true] at hall
      constructor
      · intro hmem
        simp only [extract_pysvn, hall, Bool.false_eq_true, if_false, Outcome.events] at hmem
        simp at hmem
      · intro hA
        rw [← List.all_eq_true] at hA
        rw [hall] at hA
        cases hA
  · intro cwd dir m h
    simp only [resolvesInsideDir, decide_eq_true_eq] at h
    simp only [is_within_directory, decide_eq_true_eq]
    rcases h with h | h
    · rw [h]
      exact (commonPrefixOf_eq_left _ _).2 List.prefix_rfl
    · have h' : (abspath cwd dir ++ [ '/' ]) <+: abspath cwd (pjoin dir m) := by
        simpa using h
      exact (commonPrefixOf_eq_left _ _).2
        (List.IsPrefix.trans (List.prefix_append _ _) h')

/-- Sample world whose tarball holds a member escaping to a sibling
directory whose name extends the extraction directory's name. -/
def wEvil : World :=
  { sampleWorld with tarMembers := fun _ => [strOf "../t.pysvn-install.evil/owned"] }

/-- Counterexample for C1 as stated: the member
`../t.pysvn-install.evil/owned` joined to `/tmp/t.pysvn-install` and
normalised resolves to `/tmp/t.pysvn-install.evil/owned`, outside the
extraction directory, yet the guard accepts it and the archive is fully
extracted with no error. -/
theorem extract_guard_counterexample :
    resolvesInsideDir sampleWorld.cwd (strOf "/tmp/t.pysvn-install")
      (strOf "../t.pysvn-install.evil/owned") = false
    ∧ is_within_directory sampleWorld.cwd (strOf "/tmp/t.pysvn-install")
        (pjoin (strOf "/tmp/t.pysvn-install") (strOf "../t.pysvn-install.evil/owned")) = true
    ∧ extract_pysvn wEvil (strOf "/x.tar.gz")
        = Outcome.ok (strOf "/tmp/t.pysvn-install/pysvn-1.9.12") [Ev.extractAll] := by
  decide

/-- Sample world whose tarball holds a member with an absolute path,
which the guard rejects. -/
def wAbsMember : World :=
  { sampleWorld with tarMembers := fun _ => [strOf "/etc/passwd"] }

/-- Witness for C1 (amended): an archive with an absolute member path is
rejected before anything is extracted. -/
theorem extract_guard_prefix_check_witness :
    extract_pysvn wAbsMember (strOf "/x.tar.gz") =
      Outcome.exited 1 [Ev.stderrMsg (strOf "Attempted Path Traversal in Tar File")]
    ∧ Ev.extractAll ∉ (extract_pysvn wAbsMember (strOf "/x.tar.gz")).events :=
  (extract_guard_prefix_check wAbsMember (strOf "/x.tar.gz")).1 (by decide)

theorem main_args_congr (c1 : Cli) (e1 : Env) (c2 : Cli) (e2 : Env) (w : World)
    (hv : (parse_args c1 e1).pysvn_version = (parse_args c2 e2).pysvn_version)
    (hf : (parse_args c1 e1).file = (parse_args c2 e2).file)
    (hb : (parse_args c1 e1).build_only.truthy = (parse_args c2 e2).build_only.truthy) :
    Install.main c1 e1 w = Install.main c2 e2 w := by
  simp only [Install.main]
  have hrf : run_fetch_phase (parse_args c1 e1) w = run_fetch_phase (parse_args c2 e2) w := by
    simp only [run_fetch_phase, hv, hf]
  rw [hrf, hb]

/-- C8 (amended): for the version and file flags, setting the
environment variable to any value behaves exactly like passing the flag
with that value; for the build-only flag this holds for every non-empty
value, while setting `PYSVN_INSTALLER_BUILD_ONLY` to the empty string
behaves like leaving it unset (Python truthiness), not like passing the
flag. -/
theorem env_flag_equivalence (cli : Cli) (env : Env) (w : World) :
    (∀ v, cli.pysvn_version = none →
       Install.main { cli with pysvn_version := some v } env w
         = Install.main cli { env with installer_version := some v } w)
    ∧ (∀ f, cli.file = none →
       Install.main { cli with file := some f } env w
         = Install.main cli { env with installer_src_file := some f } w)
    ∧ (∀ s, s ≠ [] → cli.build_only = false →
       Install.main { cli with build_only := true } env w
         = Install.main cli { env with installer_build_only := some s } w)
    ∧ (cli.build_only = false →
       Install.main cli { env with installer_build_only := some [] } w
         = Install.main cli { env with installer_build_only := none } w) := by
  refine ⟨?_, ?_, ?_, ?_⟩
  · intro v h
    exact main_args_congr _ _ _ _ w (by simp [parse_args, h]) rfl rfl
  · intro f h
    exact main_args_congr _ _ _ _ w rfl (by simp [parse_args, h]) rfl
  · intro s hs h
    refine main_args_congr _ _ _ _ w rfl rfl ?_
    simp only [parse_args, h, if_true, if_false, Bool.false_eq_true]
    cases s with
    | nil => exact absurd rfl hs
    | cons a l => rfl
  · intro h
    refine main_args_congr _ _ _ _ w rfl rfl ?_
    simp only [parse_args, h, if_false, Bool.false_eq_true]
    rfl

/-- Counterexample for C8 as stated: with the build-only flag absent,
setting `PYSVN_INSTALLER_BUILD_ONLY` to the empty string does not
reproduce the behaviour of `--build-only` — the run with the empty
environment value installs with pip, which a `--build-only` run never
does. -/
theorem build_only_env_empty_counterexample :
    Ev.subprocess [strOf "-m", strOf "pip", strOf "install",
        strOf "/tmp/t.pysvn-install/pysvn-1.9.12"]
      ∈ (Install.main cliFileX { envNone with installer_build_only := some [] }
          sampleWorld).events
    ∧ Ev.subprocess [strOf "-m", strOf "pip", strOf "install",
        strOf "/tmp/t.pysvn-install/pysvn-1.9.12"]
      ∉ (Install.main { cliFileX with build_only := true } envNone
          sampleWorld).events := by
  decide

/-- Witness for C8 (amended): a non-empty `PYSVN_INSTALLER_BUILD_ONLY`
is equivalent to `--build-only` on a concrete run. -/
theorem env_flag_equivalence_witness :
    Install.main { cliFileX with build_only := true } envNone sampleWorld
      = Install.main cliFileX { envNone with installer_build_only := some (strOf "1") }
          sampleWorld :=
  (env_flag_equivalence cliFileX envNone sampleWorld).2.2.1 (strOf "1")
    (by decide) rfl

theorem pySplit_nil (tok : Str) : pySplit tok [] = [[]] := by
  rw [pySplit]

theorem pySplit_cons_pos (tok : Str) (c : Char) (rest : Str)
    (h : tok ≠ [] ∧ tok.isPrefixOf (c :: rest) = true) :
    pySplit tok (c :: rest) = [] :: pySplit tok (rest.drop (tok.length - 1)) := by
  rw [pySplit]
  simp only [if_pos h]

theorem pySplit_cons_neg (tok : Str) (c : Char) (rest : Str)
    (h : ¬(tok ≠ [] ∧ tok.isPrefixOf (c :: rest) = true)) :
    pySplit tok (c :: rest) =
      match pySplit tok rest with
      | [] => [[]]
      | p :: ps => (c :: p) :: ps := by
  rw [pySplit]
  simp only [if_neg h]

theorem pyReplace_nil (tok repl : Str) : pyReplace tok repl [] = [] := by
  rw [pyReplace]

theorem pyReplace_cons_pos (tok repl : Str) (c : Char) (rest : Str)
    (h : tok ≠ [] ∧ tok.isPrefixOf (c :: rest) = true) :
    pyReplace tok repl (c :: rest) =
      repl ++ pyReplace tok repl (rest.drop (tok.length - 1)) := by
  rw [pyReplace]
  simp only [if_pos h]

theorem pyReplace_cons_neg (tok repl : Str) (c : Char) (rest : Str)
    (h : ¬(tok ≠ [] ∧ tok.isPrefixOf (c :: rest) = true)) :
    pyReplace tok repl (c :: rest) = c :: pyReplace tok repl rest := by
  rw [pyReplace]
  simp only [if_neg h]

theorem intercalate_single (sep : Str) (x : Str) : List.intercalate sep [x] = x := by
  simp [List.intercalate, List.intersperse]

theorem intercalate_cons₂ (sep x y : Str) (zs : List Str) :
    List.intercalate sep (x :: y :: zs) = x ++ (sep ++ List.intercalate sep (y :: zs)) := by
  simp [List.intercalate, List.intersperse, List.flatten]

theorem pySplit_ne_nil (tok : Str) (s : Str) : pySplit tok s ≠ [] := by
  cases s with
  | nil => rw [pySplit_nil]; simp
  | cons c rest =>
    by_cases h : tok ≠ [] ∧ tok.isPrefixOf (c :: rest) = true
    · rw [pySplit_cons_pos tok c rest h]; simp
    · rw [pySplit_cons_neg tok c rest h]
      split <;> simp

theorem pySplit_headPrefix (tok : Str) :
    ∀ s p ps, pySplit tok s = p :: ps → p <+: s := by
  intro s
  induction s using pySplit.induct tok with
  | case1 =>
    intro p ps h
    rw [pySplit_nil] at h
    cases h
    exact List.nil_prefix
  | case2 c rest hcond ih =>
    intro p ps h
    rw [pySplit_cons_pos tok c rest hcond] at h
    cases h
    exact List.nil_prefix
  | case3 c rest hcond hnil ih =>
    exact absurd hnil (pySplit_ne_nil tok rest)
  | case4 c rest hcond p0 ps0 hps ih =>
    intro p ps h
    rw [pySplit_cons_neg tok c rest hcond, hps] at h
    cases h
    exact List.cons_prefix_cons.mpr ⟨rfl, ih p0 ps0 hps⟩

theorem pySplit_intercalate (tok : Str) (htok : tok ≠ []) :
    ∀ s, List.intercalate tok (pySplit tok s) = s := by
  intro s
  induction s using pySplit.induct tok with
  | case1 =>
    rw [pySplit_nil]
    exact intercalate_single tok []
  | case2 c rest hcond ih =>
    rw [pySplit_cons_pos tok c rest hcond]
    rcases hsp : pySplit tok (rest.drop (tok.length - 1)) with _ | ⟨p, ps⟩
    · exact absurd hsp (pySplit_ne_nil _ _)
    · rw [hsp] at ih
      rw [intercalate_cons₂, ih, List.nil_append]
      obtain ⟨t, ht⟩ := List.isPrefixOf_iff_prefix.mp hcond.2
      have hdrop : rest.drop (tok.length - 1) = (c :: rest).drop tok.length := by
        cases tok with
        | nil => exact absurd rfl hcond.1
        | cons a as =>
          simp [List.length_cons, Nat.succ_sub_one, List.drop_succ_cons]
      rw [hdrop, ← ht, List.drop_left]
  | case3 c rest hcond hnil ih =>
    exact absurd hnil (pySplit_ne_nil tok rest)
  | case4 c rest hcond p0 ps0 hps ih =>
    rw [pySplit_cons_neg tok c rest hcond, hps]
    rw [hps] at ih
    cases ps0 with
    | nil =>
      rw [intercalate_single] at ih
      rw [intercalate_single, ih]
    | cons q qs =>
      rw [intercalate_cons₂] at ih
      rw [intercalate_cons₂]
      simp only [List.cons_append, ih]

theorem pyReplace_intercalate (tok repl : Str) :
    ∀ s, pyReplace tok repl s = List.intercalate repl (pySplit tok s) := by
  intro s
  induction s using pySplit.induct tok with
  | case1 =>
    rw [pySplit_nil, pyReplace_nil, intercalate_single]
  | case2 c rest hcond ih =>
    rw [pySplit_cons_pos tok c rest hcond, pyReplace_cons_pos tok repl c rest hcond]
    rcases hsp : pySplit tok (rest.drop (tok.length - 1)) with _ | ⟨p, ps⟩
    · exact absurd hsp (pySplit_ne_nil _ _)
    · rw [hsp] at ih
      rw [intercalate_cons₂, ih, List.nil_append]
  | case3 c rest hcond hnil ih =>
    exact absurd hnil (pySplit_ne_nil tok rest)
  | case4 c rest hcond p0 ps0 hps ih =>
    rw [pySplit_cons_neg tok c rest hcond, hps, pyReplace_cons_neg tok repl c rest hcond]
    rw [hps] at ih
    cases ps0 with
    | nil =>
      rw [intercalate_single] at ih
      rw [intercalate_single, ih]
    | cons q qs =>
      rw [intercalate_cons₂] at ih
      rw [intercalate_cons₂, ih]
      simp only [List.cons_append]

theorem pySplit_no_token (tok : Str) (htok : tok ≠ []) :
    ∀ s, ∀ p ∈ pySplit tok s, hasSubstr tok p = false := by
  intro s
  induction s using pySplit.induct tok with
  | case1 =>
    intro p hp
    rw [pySplit_nil] at hp
    simp only [List.mem_singleton] at hp
    subst hp
    cases tok with
    | nil => exact absurd rfl htok
    | cons a as => rfl
  | case2 c rest hcond ih =>
    intro p hp
    rw [pySplit_cons_pos tok c rest hcond] at hp
    rcases List.mem_cons.mp hp with rfl | hp
    · cases tok with
      | nil => exact absurd rfl htok
      | cons a as => rfl
    · exact ih p hp
  | case3 c rest hcond hnil ih =>
    exact absurd hnil (pySplit_ne_nil tok rest)
  | case4 c rest hcond p0 ps0 hps ih =>
    intro p hp
    rw [pySplit_cons_neg tok c rest hcond, hps] at hp
    rcases List.mem_cons.mp hp with rfl | hp
    · have hp0 : hasSubstr tok p0 = false := ih p0 (by rw [hps]; exact List.mem_cons_self _ _)
      have hpre : tok.isPrefixOf (c :: p0) = false := by
        by_contra hX
        rw [Bool.not_eq_false] at hX
        have h1 : tok <+: c :: p0 := List.isPrefixOf_iff_prefix.mp hX
        have h2 : p0 <+: rest := pySplit_headPrefix tok rest p0 ps0 hps
        have h3 : (c :: p0) <+: (c :: rest) := List.cons_prefix_cons.mpr ⟨rfl, h2⟩
        exact hcond ⟨htok, List.isPrefixOf_iff_prefix.mpr (h1.trans h3)⟩
      show hasSubstr tok (c :: p0) = false
      rw [hasSubstr, hpre, hp0]
      rfl
    · exact ih p (by rw [hps]; exact List.mem_cons_of_mem _ hp)

/-- C9: the `setup.py` text written back is exactly the original file
text with every occurrence of `setup.py configure` replaced by that
marker followed by a space and the space-joined configure arguments:
the file splits into marker-free parts whose interleaving with the
marker is the original and whose interleaving with the extended marker
is the written text. -/
theorem setup_py_patch_frame (w : World) (src : Str) (install : Bool)
    (d : Str) (rest : List Str)
    (hpy : w.globPycxx (pjoin src (strOf "Import")) = d :: rest)
    (hmk : hasSubstr config_token (w.readFile (pjoin src (strOf "setup.py"))) = true) :
    ∃ parts content,
      Ev.writeSetupPy (pjoin src (strOf "setup.py")) content
          ∈ (build_pysvn w src install).events
      ∧ w.readFile (pjoin src (strOf "setup.py")) = List.intercalate config_token parts
      ∧ content = List.intercalate
          (config_token ++ strOf " " ++ List.intercalate (strOf " ")
            (build_config_args w (pjoin (pjoin src (strOf "Import")) d))) parts
      ∧ ∀ p ∈ parts, hasSubstr config_token p = false := by
  have htok : config_token ≠ [] := by decide
  refine ⟨pySplit config_token (w.readFile (pjoin src (strOf "setup.py"))),
    pyReplace config_token (config_token ++ strOf " " ++ List.intercalate (strOf " ")
      (build_config_args w (pjoin (pjoin src (strOf "Import")) d)))
      (w.readFile (pjoin src (strOf "setup.py"))), ?_, ?_, ?_, ?_⟩
  · simp only [build_pysvn, hpy, hmk]
    simp [Outcome.events]
  · exact (pySplit_intercalate config_token htok _).symm
  · exact pyReplace_intercalate config_token _ _
  · exact pySplit_no_token config_token htok _

/-- Witness for C9: on the sample world the patch decomposition exists
for a concrete `setup.py`. -/
theorem setup_py_patch_frame_witness :
    ∃ parts content,
      Ev.writeSetupPy (pjoin (strOf "/tmp/t.pysvn-install/pysvn-1.9.12") (strOf "setup.py"))
          content
          ∈ (build_pysvn sampleWorld (strOf "/tmp/t.pysvn-install/pysvn-1.9.12") true).events
      ∧ sampleWorld.readFile
          (pjoin (strOf "/tmp/t.pysvn-install/pysvn-1.9.12") (strOf "setup.py"))
          = List.intercalate config_token parts
      ∧ content = List.intercalate
          (config_token ++ strOf " " ++ List.intercalate (strOf " ")
            (build_config_args sampleWorld
              (pjoin (pjoin (strOf "/tmp/t.pysvn-install/pysvn-1.9.12") (strOf "Import"))
                (pjoin (pjoin (strOf "/tmp/t.pysvn-install/pysvn-1.9.12") (strOf "Import"))
                  (strOf "pycxx-7.1.5"))))) parts
      ∧ ∀ p ∈ parts, hasSubstr config_token p = false :=
  setup_py_patch_frame sampleWorld (strOf "/tmp/t.pysvn-install/pysvn-1.9.12") true
    (pjoin (pjoin (strOf "/tmp/t.pysvn-install/pysvn-1.9.12") (strOf "Import"))
      (strOf "pycxx-7.1.5"))
    [] (by decide) (by decide)

theorem take13_of_lit_append (lit r : Str) (h : lit.length = 13) :
    (lit ++ r).take 13 = lit :=
  List.take_left' h

theorem dir_flag_take13 (n p : Str) (h : n.length = 13) :
    (dir_flag n p).take 13 = n := by
  simp only [dir_flag]
  rw [List.append_assoc, List.append_assoc]
  exact take13_of_lit_append n _ h

theorem dir_flag_inj (n p q : Str) (h : dir_flag n p = dir_flag n q) : p = q := by
  simp only [dir_flag, List.append_assoc] at h
  have h2 := List.append_cancel_left h
  have h3 := List.append_cancel_left h2
  exact List.append_cancel_right h3

theorem mem_marker_flag_args (w : World) (paths : List Str) (marker flagName p : Str) :
    dir_flag flagName p ∈ marker_flag_args w paths marker flagName ↔
      first_marker_dir w paths marker = some p := by
  simp only [marker_flag_args]
  split
  · rename_i q hq
    simp only [List.mem_singleton]
    constructor
    · intro h
      rw [hq, dir_flag_inj flagName q p (by rw [h])]
    · intro h
      rw [hq] at h
      injection h with h1
      rw [h1]
  · rename_i hq
    simp only [List.not_mem_nil, false_iff]
    intro h
    rw [hq] at h
    cases h

theorem not_mem_marker_flag_args (w : World) (paths : List Str) (marker flagName n p : Str)
    (hn : n.length = 13) (hf : flagName.length = 13) (hne : n ≠ flagName) :
    dir_flag n p ∉ marker_flag_args w paths marker flagName := by
  simp only [marker_flag_args]
  split
  · rename_i q hq
    simp only [List.mem_singleton]
    intro h
    have h13 := congrArg (List.take 13) h
    rw [dir_flag_take13 n p hn, dir_flag_take13 flagName q hf] at h13
    exact hne h13
  · simp

theorem config_tool_preserves_config_args (w : World) (d : DepLists) :
    (config_tool_dep_lists w d).config_args = d.config_args := by
  simp only [config_tool_dep_lists]
  split
  · split
    · split
      · split <;> rfl
      · rfl
    · split
      · split <;> rfl
      · rfl
  · split
    · split <;> rfl
    · rfl

theorem config_args_cases (w : World) (pycxx_path : Str) :
    (config_tool_dep_lists w (platform_dep_lists w pycxx_path)).config_args
      = [strOf "--pycxx-dir=\"" ++ pycxx_path ++ [ '"' ]]
    ∨ (config_tool_dep_lists w (platform_dep_lists w pycxx_path)).config_args
      = [strOf "--pycxx-dir=\"" ++ pycxx_path ++ [ '"' ],
         strOf "--link-python-framework-via-dynamic-lookup"] := by
  rw [config_tool_preserves_config_args]
  simp only [platform_dep_lists]
  split
  · right
    simp
  · split
    · split <;> (left; rfl)
    · left
      rfl

theorem dir_flag_not_mem_base (w : World) (pycxx_path n p : Str)
    (hn : n.length = 13)
    (hne1 : n ≠ strOf "--pycxx-dir=\"")
    (hne2 : n ≠ strOf "--link-python") :
    dir_flag n p
      ∉ (config_tool_dep_lists w (platform_dep_lists w pycxx_path)).config_args := by
  have hpm : dir_flag n p ≠ strOf "--pycxx-dir=\"" ++ (pycxx_path ++ [ '"' ]) := by
    intro h
    have h13 := congrArg (List.take 13) h
    rw [dir_flag_take13 n p hn, take13_of_lit_append _ _ (by decide)] at h13
    exact hne1 h13
  have hfm : dir_flag n p ≠ strOf "--link-python-framework-via-dynamic-lookup" := by
    intro h
    have h13 := congrArg (List.take 13) h
    rw [dir_flag_take13 n p hn] at h13
    exact hne2 (by rw [h13]; decide)
  rcases config_args_cases w pycxx_path with hc | hc <;> rw [hc]
  · simp [hpm]
  · simp [hpm, hfm]

/-- The candidate lists after the platform branch and the config-tool
insertion, as used by the scan loops. -/
def dep_lists_final (w : World) (pycxx_path : Str) : DepLists :=
  config_tool_dep_lists w (platform_dep_lists w pycxx_path)

theorem first_marker_dir_spec (w : World) (paths : List Str) (marker p : Str) :
    first_marker_dir w paths marker = some p ↔
      (w.pathExists (pjoin p marker) = true
       ∧ ∃ as bs, paths = as ++ p :: bs
           ∧ ∀ q ∈ as, w.pathExists (pjoin q marker) = false) := by
  simp only [first_marker_dir, List.find?_eq_some]
  constructor
  · rintro ⟨hp, as, bs, heq, hprev⟩
    exact ⟨hp, as, bs, heq, fun q hq => by simpa using hprev q hq⟩
  · rintro ⟨hp, as, bs, heq, hprev⟩
    exact ⟨hp, as, bs, heq, fun q hq => by simp [hprev q hq]⟩

theorem mem_build_config_args_iff (w : World) (pycxx_path : Str) (x : Str) :
    x ∈ build_config_args w pycxx_path ↔
      x ∈ (dep_lists_final w pycxx_path).config_args
      ∨ x ∈ marker_flag_args w (dep_lists_final w pycxx_path).extra_apr_include_paths
          (strOf "apr.h") (strOf "--apr-inc-dir")
      ∨ x ∈ (match (dep_lists_final w pycxx_path).libapr_filename with
          | some fn => marker_flag_args w (dep_lists_final w pycxx_path).extra_apr_lib_paths
              fn (strOf "--apr-lib-dir")
          | none => [])
      ∨ x ∈ marker_flag_args w (dep_lists_final w pycxx_path).extra_apu_include_paths
          (strOf "apu.h") (strOf "--apu-inc-dir")
      ∨ x ∈ marker_flag_args w (dep_lists_final w pycxx_path).extra_svn_bin_paths
          (strOf "svn") (strOf "--svn-bin-dir")
      ∨ x ∈ marker_flag_args w (dep_lists_final w pycxx_path).extra_svn_include_paths
          (strOf "svn_client.h") (strOf "--svn-inc-dir")
      ∨ x ∈ (match (dep_lists_final w pycxx_path).libsvn_client_filename with
          | some fn => marker_flag_args w (dep_lists_final w pycxx_path).extra_svn_lib_paths
              fn (strOf "--svn-lib-dir")
          | none => []) := by
  simp only [build_config_args, dep_lists_final, List.mem_append, or_assoc]

theorem apr_inc_flag_iff (w : World) (pycxx_path p : Str) :
    dir_flag (strOf "--apr-inc-dir") p ∈ build_config_args w pycxx_path ↔
      first_marker_dir w (dep_lists_final w pycxx_path).extra_apr_include_paths
        (strOf "apr.h") = some p := by
  rw [mem_build_config_args_iff]
  constructor
  · rintro (h | h | h | h | h | h | h)
    · exact absurd h (dir_flag_not_mem_base w pycxx_path _ p (by decide) (by decide) (by decide))
    · exact (mem_marker_flag_args w _ _ _ p).mp h
    · cases hfn : (dep_lists_final w pycxx_path).libapr_filename with
      | none => rw [hfn] at h; cases h
      | some fn =>
        rw [hfn] at h
        exact absurd h (not_mem_marker_flag_args w _ _ _ _ p (by decide) (by decide) (by decide))
    · exact absurd h (not_mem_marker_flag_args w _ _ _ _ p (by decide) (by decide) (by decide))
    · exact absurd h (not_mem_marker_flag_args w _ _ _ _ p (by decide) (by decide) (by decide))
    · exact absurd h (not_mem_marker_flag_args w _ _ _ _ p (by decide) (by decide) (by decide))
    · cases hfn : (dep_lists_final w pycxx_path).libsvn_client_filename with
      | none => rw [hfn] at h; cases h
      | some fn =>
        rw [hfn] at h
        exact absurd h (not_mem_marker_flag_args w _ _ _ _ p (by decide) (by decide) (by decide))
  · intro h
    exact Or.inr (Or.inl ((mem_marker_flag_args w _ _ _ p).mpr h))

theorem apu_inc_flag_iff (w : World) (pycxx_path p : Str) :
    dir_flag (strOf "--apu-inc-dir") p ∈ build_config_args w pycxx_path ↔
      first_marker_dir w (dep_lists_final w pycxx_path).extra_apu_include_paths
        (strOf "apu.h") = some p := by
  rw [mem_build_config_args_iff]
  constructor
  · rintro (h | h | h | h | h | h | h)
    · exact absurd h (dir_flag_not_mem_base w pycxx_path _ p (by decide) (by decide) (by decide))
    · exact absurd h (not_mem_marker_flag_args w _ _ _ _ p (by decide) (by decide) (by decide))
    · cases hfn : (dep_lists_final w pycxx_path).libapr_filename with
      | none => rw [hfn] at h; cases h
      | some fn =>
        rw [hfn] at h
        exact absurd h (not_mem_marker_flag_args w _ _ _ _ p (by decide) (by decide) (by decide))
    · exact (mem_marker_flag_args w _ _ _ p).mp h
    · exact absurd h (not_mem_marker_flag_args w _ _ _ _ p (by decide) (by decide) (by decide))
    · exact absurd h (not_mem_marker_flag_args w _ _ _ _ p (by decide) (by decide) (by decide))
    · cases hfn : (dep_lists_final w pycxx_path).libsvn_client_filename with
      | none => rw [hfn] at h; cases h
      | some fn =>
        rw [hfn] at h
        exact absurd h (not_mem_marker_flag_args w _ _ _ _ p (by decide) (by decide) (by decide))
  · intro h
    exact Or.inr (Or.inr (Or.inr (Or.inl ((mem_marker_flag_args w _ _ _ p).mpr h))))

theorem svn_bin_flag_iff (w : World) (pycxx_path p : Str) :
    dir_flag (strOf "--svn-bin-dir") p ∈ build_config_args w pycxx_path ↔
      first_marker_dir w (dep_lists_final w pycxx_path).extra_svn_bin_paths
        (strOf "svn") = some p := by
  rw [mem_build_config_args_iff]
  constructor
  · rintro (h | h | h | h | h | h | h)
    · exact absurd h (dir_flag_not_mem_base w pycxx_path _ p (by decide) (by decide) (by decide))
    · exact absurd h (not_mem_marker_flag_args w _ _ _ _ p (by decide) (by decide) (by decide))
    · cases hfn : (dep_lists_final w pycxx_path).libapr_filename with
      | none => rw [hfn] at h; cases h
      | some fn =>
        rw [hfn] at h
        exact absurd h (not_mem_marker_flag_args w _ _ _ _ p (by decide) (by decide) (by decide))
    · exact absurd h (not_mem_marker_flag_args w _ _ _ _ p (by decide) (by decide) (by decide))
    · exact (mem_marker_flag_args w _ _ _ p).mp h
    · exact absurd h (not_mem_marker_flag_args w _ _ _ _ p (by decide) (by decide) (by decide))
    · cases hfn : (dep_lists_final w pycxx_path).libsvn_client_filename with
      | none => rw [hfn] at h; cases h
      | some fn =>
        rw [hfn] at h
        exact absurd h (not_mem_marker_flag_args w _ _ _ _ p (by decide) (by decide) (by decide))
  · intro h
    exact Or.inr (Or.inr (Or.inr (Or.inr (Or.inl ((mem_marker_flag_args w _ _ _ p).mpr h)))))

theorem svn_inc_flag_iff (w : World) (pycxx_path p : Str) :
    dir_flag (strOf "--svn-inc-dir") p ∈ build_config_args w pycxx_path ↔
      first_marker_dir w (dep_lists_final w pycxx_path).extra_svn_include_paths
        (strOf "svn_client.h") = some p := by
  rw [mem_build_config_args_iff]
  constructor
  · rintro (h | h | h | h | h | h | h)
    · exact absurd h (dir_flag_not_mem_base w pycxx_path _ p (by decide) (by decide) (by decide))
    · exact absurd h (not_mem_marker_flag_args w _ _ _ _ p (by decide) (by decide) (by decide))
    · cases hfn : (dep_lists_final w pycxx_path).libapr_filename with
      | none => rw [hfn] at h; cases h
      | some fn =>
        rw [hfn] at h
        exact absurd h (not_mem_marker_flag_args w _ _ _ _ p (by decide) (by decide) (by decide))
    · exact absurd h (not_mem_marker_flag_args w _ _ _ _ p (by decide) (by decide) (by decide))
    · exact absurd h (not_mem_marker_flag_args w _ _ _ _ p (by decide) (by decide) (by decide))
    · exact (mem_marker_flag_args w _ _ _ p).mp h
    · cases hfn : (dep_lists_final w pycxx_path).libsvn_client_filename with
      | none => rw [hfn] at h; cases h
      | some fn =>
        rw [hfn] at h
        exact absurd h (not_mem_marker_flag_args w _ _ _ _ p (by decide) (by decide) (by decide))
  · intro h
    exact Or.inr (Or.inr (Or.inr (Or.inr (Or.inr (Or.inl
      ((mem_marker_flag_args w _ _ _ p).mpr h))))))

theorem apr_lib_flag_iff (w : World) (pycxx_path p : Str) :
    dir_flag (strOf "--apr-lib-dir") p ∈ build_config_args w pycxx_path ↔
      (∃ fn, (dep_lists_final w pycxx_path).libapr_filename = some fn
        ∧ first_marker_dir w (dep_lists_final w pycxx_path).extra_apr_lib_paths fn
            = some p) := by
  rw [mem_build_config_args_iff]
  constructor
  · rintro (h | h | h | h | h | h | h)
    · exact absurd h (dir_flag_not_mem_base w pycxx_path _ p (by decide) (by decide) (by decide))
    · exact absurd h (not_mem_marker_flag_args w _ _ _ _ p (by decide) (by decide) (by decide))
    · cases hfn : (dep_lists_final w pycxx_path).libapr_filename with
      | none => rw [hfn] at h; cases h
      | some fn =>
        rw [hfn] at h
        exact ⟨fn, rfl, (mem_marker_flag_args w _ _ _ p).mp h⟩
    · exact absurd h (not_mem_marker_flag_args w _ _ _ _ p (by decide) (by decide) (by decide))
    · exact absurd h (not_mem_marker_flag_args w _ _ _ _ p (by decide) (by decide) (by decide))
    · exact absurd h (not_mem_marker_flag_args w _ _ _ _ p (by decide) (by decide) (by decide))
    · cases hfn : (dep_lists_final w pycxx_path).libsvn_client_filename with
      | none => rw [hfn] at h; cases h
      | some fn =>
        rw [hfn] at h
        exact absurd h (not_mem_marker_flag_args w _ _ _ _ p (by decide) (by decide) (by decide))
  · rintro ⟨fn, hfn, hfm⟩
    refine Or.inr (Or.inr (Or.inl ?_))
    rw [hfn]
    exact (mem_marker_flag_args w _ _ _ p).mpr hfm

theorem svn_lib_flag_iff (w : World) (pycxx_path p : Str) :
    dir_flag (strOf "--svn-lib-dir") p ∈ build_config_args w pycxx_path ↔
      (∃ fn, (dep_lists_final w pycxx_path).libsvn_client_filename = some fn
        ∧ first_marker_dir w (dep_lists_final w pycxx_path).extra_svn_lib_paths fn
            = some p) := by
  rw [mem_build_config_args_iff]
  constructor
  · rintro (h | h | h | h | h | h | h)
    · exact absurd h (dir_flag_not_mem_base w pycxx_path _ p (by decide) (by decide) (by decide))
    · exact absurd h (not_mem_marker_flag_args w _ _ _ _ p (by decide) (by decide) (by decide))
    · cases hfn : (dep_lists_final w pycxx_path).libapr_filename with
      | none => rw [hfn] at h; cases h
      | some fn =>
        rw [hfn] at h
        exact absurd h (not_mem_marker_flag_args w _ _ _ _ p (by decide) (by decide) (by decide))
    · exact absurd h (not_mem_marker_flag_args w _ _ _ _ p (by decide) (by decide) (by decide))
    · exact absurd h (not_mem_marker_flag_args w _ _ _ _ p (by decide) (by decide) (by decide))
    · exact absurd h (not_mem_marker_flag_args w _ _ _ _ p (by decide) (by decide) (by decide))
    · cases hfn : (dep_lists_final w pycxx_path).libsvn_client_filename with
      | none => rw [hfn] at h; cases h
      | some fn =>
        rw [hfn] at h
        exact ⟨fn, rfl, (mem_marker_flag_args w _ _ _ p).mp h⟩
  · rintro ⟨fn, hfn, hfm⟩
    refine Or.inr (Or.inr (Or.inr (Or.inr (Or.inr (Or.inr ?_)))))
    rw [hfn]
    exact (mem_marker_flag_args w _ _ _ p).mpr hfm

theorem build_config_args_eq (w : World) (pycxx_path : Str) :
    build_config_args w pycxx_path =
      (dep_lists_final w pycxx_path).config_args
      ++ marker_flag_args w (dep_lists_final w pycxx_path).extra_apr_include_paths
          (strOf "apr.h") (strOf "--apr-inc-dir")
      ++ (match (dep_lists_final w pycxx_path).libapr_filename with
          | some fn => marker_flag_args w (dep_lists_final w pycxx_path).extra_apr_lib_paths
              fn (strOf "--apr-lib-dir")
          | none => [])
      ++ marker_flag_args w (dep_lists_final w pycxx_path).extra_apu_include_paths
          (strOf "apu.h") (strOf "--apu-inc-dir")
      ++ marker_flag_args w (dep_lists_final w pycxx_path).extra_svn_bin_paths
          (strOf "svn") (strOf "--svn-bin-dir")
      ++ marker_flag_args w (dep_lists_final w pycxx_path).extra_svn_include_paths
          (strOf "svn_client.h") (strOf "--svn-inc-dir")
      ++ (match (dep_lists_final w pycxx_path).libsvn_client_filename with
          | some fn => marker_flag_args w (dep_lists_final w pycxx_path).extra_svn_lib_paths
              fn (strOf "--svn-lib-dir")
          | none => []) := rfl

theorem countP_marker_flag_args_le_one (w : World) (paths : List Str)
    (marker flagName : Str) (f : Str → Bool) :
    (marker_flag_args w paths marker flagName).countP f ≤ 1 := by
  simp only [marker_flag_args]
  split
  · rename_i q hq
    cases hf : f (dir_flag flagName q) <;> simp [List.countP_cons, hf]
  · simp

theorem countP_marker_flag_args_other (w : World) (paths : List Str)
    (marker flagName n : Str)
    (hf : flagName.length = 13) (hne : flagName ≠ n) :
    (marker_flag_args w paths marker flagName).countP
      (fun a => decide (a.take 13 = n)) = 0 := by
  simp only [marker_flag_args]
  split
  · rename_i q hq
    simp [List.countP_cons, dir_flag_take13 flagName q hf, hne]
  · simp

theorem countP_base_zero (w : World) (pycxx_path n : Str)
    (hn1 : n ≠ strOf "--pycxx-dir=\"") (hn2 : n ≠ strOf "--link-python") :
    ((dep_lists_final w pycxx_path).config_args).countP
      (fun a => decide (a.take 13 = n)) = 0 := by
  have e1 : (strOf "--pycxx-dir=\"" ++ (pycxx_path ++ [ '"' ])).take 13
      = strOf "--pycxx-dir=\"" := take13_of_lit_append _ _ (by decide)
  have e2 : (strOf "--link-python-framework-via-dynamic-lookup").take 13
      = strOf "--link-python" := by decide
  rcases config_args_cases w pycxx_path with hc | hc <;>
    simp only [dep_lists_final, hc] <;>
    simp [List.countP_cons, e1, e2, Ne.symm hn1, Ne.symm hn2]

theorem countP_build_le_one (w : World) (pycxx_path n : Str)
    (hn : n = strOf "--apr-inc-dir" ∨ n = strOf "--apr-lib-dir"
      ∨ n = strOf "--apu-inc-dir" ∨ n = strOf "--svn-bin-dir"
      ∨ n = strOf "--svn-inc-dir" ∨ n = strOf "--svn-lib-dir") :
    (build_config_args w pycxx_path).countP
      (fun a : Str => decide (a.take 13 = n)) ≤ 1 := by
  have hopt : ∀ (o : Option Str) (paths : List Str) (flagName : Str) (f : Str → Bool),
      (match o with
        | some fn => marker_flag_args w paths fn flagName
        | none => []).countP f ≤ 1 := by
    intro o paths flagName f
    cases o
    · simp
    · exact countP_marker_flag_args_le_one w paths _ flagName f
  have hopt0 : ∀ (o : Option Str) (paths : List Str) (flagName : Str),
      flagName.length = 13 → flagName ≠ n →
      (match o with
        | some fn => marker_flag_args w paths fn flagName
        | none => []).countP (fun a : Str => decide (a.take 13 = n)) = 0 := by
    intro o paths flagName hf hne
    cases o
    · simp
    · exact countP_marker_flag_args_other w paths _ flagName n hf hne
  rw [build_config_args_eq]
  simp only [List.countP_append]
  rcases hn with rfl | rfl | rfl | rfl | rfl | rfl
  · rw [countP_base_zero w pycxx_path _ (by decide) (by decide),
      hopt0 _ _ (strOf "--apr-lib-dir") (by decide) (by decide),
      countP_marker_flag_args_other w _ _ (strOf "--apu-inc-dir") _ (by decide) (by decide),
      countP_marker_flag_args_other w _ _ (strOf "--svn-bin-dir") _ (by decide) (by decide),
      countP_marker_flag_args_other w _ _ (strOf "--svn-inc-dir") _ (by decide) (by decide),
      hopt0 _ _ (strOf "--svn-lib-dir") (by decide) (by decide)]
    simpa using countP_marker_flag_args_le_one w _ _ (strOf "--apr-inc-dir") _
  · rw [countP_base_zero w pycxx_path _ (by decide) (by decide),
      countP_marker_flag_args_other w _ _ (strOf "--apr-inc-dir") _ (by decide) (by decide),
      countP_marker_flag_args_other w _ _ (strOf "--apu-inc-dir") _ (by decide) (by decide),
      countP_marker_flag_args_other w _ _ (strOf "--svn-bin-dir") _ (by decide) (by decide),
      countP_marker_flag_args_other w _ _ (strOf "--svn-inc-dir") _ (by decide) (by decide),
      hopt0 _ _ (strOf "--svn-lib-dir") (by decide) (by decide)]
    simpa using hopt ((dep_lists_final w pycxx_path).libapr_filename)
      ((dep_lists_final w pycxx_path).extra_apr_lib_paths) (strOf "--apr-lib-dir") _
  · rw [countP_base_zero w pycxx_path _ (by decide) (by decide),
      countP_marker_flag_args_other w _ _ (strOf "--apr-inc-dir") _ (by decide) (by decide),
      hopt0 _ _ (strOf "--apr-lib-dir") (by decide) (by decide),
      countP_marker_flag_args_other w _ _ (strOf "--svn-bin-dir") _ (by decide) (by decide),
      countP_marker_flag_args_other w _ _ (strOf "--svn-inc-dir") _ (by decide) (by decide),
      hopt0 _ _ (strOf "--svn-lib-dir") (by decide) (by decide)]
    simpa using countP_marker_flag_args_le_one w _ _ (strOf "--apu-inc-dir") _
  · rw [countP_base_zero w pycxx_path _ (by decide) (by decide),
      countP_marker_flag_args_other w _ _ (strOf "--apr-inc-dir") _ (by decide) (by decide),
      hopt0 _ _ (strOf "--apr-lib-dir") (by decide) (by decide),
      countP_marker_flag_args_other w _ _ (strOf "--apu-inc-dir") _ (by decide) (by decide),
      countP_marker_flag_args_other w _ _ (strOf "--svn-inc-dir") _ (by decide) (by decide),
      hopt0 _ _ (strOf "--svn-lib-dir") (by decide) (by decide)]
    simpa using countP_marker_flag_args_le_one w _ _ (strOf "--svn-bin-dir") _
  · rw [countP_base_zero w pycxx_path _ (by decide) (by decide),
      countP_marker_flag_args_other w _ _ (strOf "--apr-inc-dir") _ (by decide) (by decide),
      hopt0 _ _ (strOf "--apr-lib-dir") (by decide) (by decide),
      countP_marker_flag_args_other w _ _ (strOf "--apu-inc-dir") _ (by decide) (by decide),
      countP_marker_flag_args_other w _ _ (strOf "--svn-bin-dir") _ (by decide) (by decide),
      hopt0 _ _ (strOf "--svn-lib-dir") (by decide) (by decide)]
    simpa using countP_marker_flag_args_le_one w _ _ (strOf "--svn-inc-dir") _
  · rw [countP_base_zero w pycxx_path _ (by decide) (by decide),
      countP_marker_flag_args_other w _ _ (strOf "--apr-inc-dir") _ (by decide) (by decide),
      hopt0 _ _ (strOf "--apr-lib-dir") (by decide) (by decide),
      countP_marker_flag_args_other w _ _ (strOf "--apu-inc-dir") _ (by decide) (by decide),
      countP_marker_flag_args_other w _ _ (strOf "--svn-bin-dir") _ (by decide) (by decide),
      countP_marker_flag_args_other w _ _ (strOf "--svn-inc-dir") _ (by decide) (by decide)]
    simpa using hopt ((dep_lists_final w pycxx_path).libsvn_client_filename)
      ((dep_lists_final w pycxx_path).extra_svn_lib_paths) (strOf "--svn-lib-dir") _

theorem config_tool_apr_insert (w : World) (d : DepLists) (cp : Str)
    (hcp : d.apr_config_path = some cp) (hne : cp.isEmpty = false)
    (hex : w.pathExists cp = true) :
    (config_tool_dep_lists w d).extra_apr_include_paths
      = w.configOutput cp (strOf "--includedir") :: d.extra_apr_include_paths := by
  simp only [config_tool_dep_lists, hcp, hne, hex, Bool.not_false, Bool.and_self, if_true]
  split
  · split <;> rfl
  · rfl

theorem config_tool_apu_insert (w : World) (d : DepLists) (cp : Str)
    (hcp : d.apu_config_path = some cp) (hne : cp.isEmpty = false)
    (hex : w.pathExists cp = true) :
    (config_tool_dep_lists w d).extra_apu_include_paths
      = w.configOutput cp (strOf "--includedir") :: d.extra_apu_include_paths := by
  simp only [config_tool_dep_lists, hcp, hne, hex, Bool.not_false, Bool.and_self, if_true]
  split
  · split <;> rfl
  · rfl

theorem first_marker_dir_cons_pos (w : World) (x : Str) (l : List Str) (marker : Str)
    (h : w.pathExists (pjoin x marker) = true) :
    first_marker_dir w (x :: l) marker = some x := by
  simp only [first_marker_dir]
  exact List.find?_cons_of_pos _ (by simp [h])

/-- C10: each of the six dependency categories contributes at most one
directory flag to the configure arguments; a category's flag is present
for a path exactly when that path is the first candidate, in list
order, whose directory contains the category's marker file (the two
library categories only scan when the platform assigned a library
filename); and an include directory reported by `apr-1-config` /
`apu-1-config` is inserted at the front of its candidate list, so it is
preferred over every platform-default candidate. -/
theorem configure_dir_flags (w : World) (pycxx_path : Str) :
    (∀ n, (n = strOf "--apr-inc-dir" ∨ n = strOf "--apr-lib-dir"
        ∨ n = strOf "--apu-inc-dir" ∨ n = strOf "--svn-bin-dir"
        ∨ n = strOf "--svn-inc-dir" ∨ n = strOf "--svn-lib-dir") →
      (build_config_args w pycxx_path).countP
        (fun a : Str => decide (a.take 13 = n)) ≤ 1)
    ∧ (∀ p, dir_flag (strOf "--apr-inc-dir") p ∈ build_config_args w pycxx_path ↔
        first_marker_dir w (dep_lists_final w pycxx_path).extra_apr_include_paths
          (strOf "apr.h") = some p)
    ∧ (∀ p, dir_flag (strOf "--apu-inc-dir") p ∈ build_config_args w pycxx_path ↔
        first_marker_dir w (dep_lists_final w pycxx_path).extra_apu_include_paths
          (strOf "apu.h") = some p)
    ∧ (∀ p, dir_flag (strOf "--svn-bin-dir") p ∈ build_config_args w pycxx_path ↔
        first_marker_dir w (dep_lists_final w pycxx_path).extra_svn_bin_paths
          (strOf "svn") = some p)
    ∧ (∀ p, dir_flag (strOf "--svn-inc-dir") p ∈ build_config_args w pycxx_path ↔
        first_marker_dir w (dep_lists_final w pycxx_path).extra_svn_include_paths
          (strOf "svn_client.h") = some p)
    ∧ (∀ p, dir_flag (strOf "--apr-lib-dir") p ∈ build_config_args w pycxx_path ↔
        (∃ fn, (dep_lists_final w pycxx_path).libapr_filename = some fn
          ∧ first_marker_dir w (dep_lists_final w pycxx_path).extra_apr_lib_paths fn
              = some p))
    ∧ (∀ p, dir_flag (strOf "--svn-lib-dir") p ∈ build_config_args w pycxx_path ↔
        (∃ fn, (dep_lists_final w pycxx_path).libsvn_client_filename = some fn
          ∧ first_marker_dir w (dep_lists_final w pycxx_path).extra_svn_lib_paths fn
              = some p))
    ∧ (∀ paths marker p, first_marker_dir w paths marker = some p ↔
        (w.pathExists (pjoin p marker) = true
         ∧ ∃ as bs, paths = as ++ p :: bs
             ∧ ∀ q ∈ as, w.pathExists (pjoin q marker) = false))
    ∧ (∀ cp, (platform_dep_lists w pycxx_path).apr_config_path = some cp →
        cp.isEmpty = false → w.pathExists cp = true →
        (dep_lists_final w pycxx_path).extra_apr_include_paths
          = w.configOutput cp (strOf "--includedir")
              :: (platform_dep_lists w pycxx_path).extra_apr_include_paths
        ∧ (w.pathExists (pjoin (w.configOutput cp (strOf "--includedir"))
              (strOf "apr.h")) = true →
            first_marker_dir w (dep_lists_final w pycxx_path).extra_apr_include_paths
              (strOf "apr.h") = some (w.configOutput cp (strOf "--includedir"))))
    ∧ (∀ cp, (platform_dep_lists w pycxx_path).apu_config_path = some cp →
        cp.isEmpty = false → w.pathExists cp = true →
        (dep_lists_final w pycxx_path).extra_apu_include_paths
          = w.configOutput cp (strOf "--includedir")
              :: (platform_dep_lists w pycxx_path).extra_apu_include_paths
        ∧ (w.pathExists (pjoin (w.configOutput cp (strOf "--includedir"))
              (strOf "apu.h")) = true →
            first_marker_dir w (dep_lists_final w pycxx_path).extra_apu_include_paths
              (strOf "apu.h") = some (w.configOutput cp (strOf "--includedir")))) := by
  refine ⟨fun n hn => countP_build_le_one w pycxx_path n hn,
    fun p => apr_inc_flag_iff w pycxx_path p,
    fun p => apu_inc_flag_iff w pycxx_path p,
    fun p => svn_bin_flag_iff w pycxx_path p,
    fun p => svn_inc_flag_iff w pycxx_path p,
    fun p => apr_lib_flag_iff w pycxx_path p,
    fun p => svn_lib_flag_iff w pycxx_path p,
    fun paths marker p => first_marker_dir_spec w paths marker p,
    ?_, ?_⟩
  · intro cp hcp hne hex
    have hins := config_tool_apr_insert w (platform_dep_lists w pycxx_path) cp hcp hne hex
    refine ⟨hins, ?_⟩
    intro hmark
    rw [show (dep_lists_final w pycxx_path).extra_apr_include_paths = _ from hins]
    exact first_marker_dir_cons_pos w _ _ _ hmark
  · intro cp hcp hne hex
    have hins := config_tool_apu_insert w (platform_dep_lists w pycxx_path) cp hcp hne hex
    refine ⟨hins, ?_⟩
    intro hmark
    rw [show (dep_lists_final w pycxx_path).extra_apu_include_paths = _ from hins]
    exact first_marker_dir_cons_pos w _ _ _ hmark

/-- A macOS world with Homebrew APR installed, for the C10 witness. -/
def wDarwin : World :=
  { sampleWorld with
    system := strOf "Darwin"
    brewPrefix := fun pkg =>
      if pkg = strOf "apr" then some (strOf "/opt/brew/apr") else none }

/-- Witness for C10: on the macOS world the `apr-1-config` include
directory is selected first and its flag is in the configure
arguments. -/
theorem configure_dir_flags_witness :
    first_marker_dir wDarwin
      (dep_lists_final wDarwin (strOf "/src")).extra_apr_include_paths (strOf "apr.h")
      = some (strOf "/usr/include/apr-1")
    ∧ dir_flag (strOf "--apr-inc-dir") (strOf "/usr/include/apr-1")
        ∈ build_config_args wDarwin (strOf "/src") := by
  have T := configure_dir_flags wDarwin (strOf "/src")
  have hp := T.2.2.2.2.2.2.2.2.1 (strOf "/opt/brew/apr/bin/apr-1-config")
    (by decide) (by decide) (by decide)
  have hfmd := hp.2 (by decide)
  exact ⟨hfmd, (T.2.1 (strOf "/usr/include/apr-1")).mpr hfmd⟩
